import Mathlib

/-!
Verification of the tic-tac-toe board and minimax engine of this repository.

The board logic is a shallow embedding of `TicTacToe`
(`tic-tac-toe/tic_tac_toe.py`): the flat 9-cell board list, move
application with win detection, and the helpers over the empty squares.
The engine is a shallow embedding of `GeniusComputerPlayer`
(`tic-tac-toe-minimax/player.py`): the fuel-indexed `minimaxF` mirrors the
recursive `minimax` method, returning both the result dictionary and the
final (mutated-and-restored) game state, `none` standing for a search that
would not terminate within the given recursion depth.  `get_move` wraps it
the way the Python method does, with the opening-move random shortcut.
-/

set_option maxRecDepth 4000

/-- The two marks a player can place on the board (the source uses the
strings x and o). -/
inductive Letter where
  | X : Letter
  | O : Letter
deriving DecidableEq, Repr

/-- A board cell: `none` is the empty square (a blank string in the source). -/
abbrev Cell := Option Letter

/-- The state held by a `TicTacToe` object: the flat board list together with
`current_winner`. -/
structure TicTacToe where
  board : List Cell
  current_winner : Option Letter
deriving DecidableEq, Repr

/-- `TicTacToe.ROWS`. -/
def ROWS : Nat := 3

/-- `TicTacToe.COLS`. -/
def COLS : Nat := 3

/-- `TicTacToe.TOTAL_CELLS`. -/
def TOTAL_CELLS : Nat := ROWS * COLS

/-- Modelled from the spec: the minimax variant's board class (whose
`tic_tac_toe.py` is not in the sources) exposes the grid dimensions used by
`GeniusComputerPlayer.get_move`; the spec fixes a 3x3 grid. -/
def get_rows (_g : TicTacToe) : Nat := ROWS

/-- Modelled from the spec: see `get_rows`. -/
def get_cols (_g : TicTacToe) : Nat := COLS

/-- `TicTacToe.__init__`: the empty board with no winner. -/
def initialGame : TicTacToe :=
  { board := List.replicate TOTAL_CELLS none, current_winner := none }

/-- The enumerate-and-filter comprehension of `available_moves`, indexing
from `k`. -/
def availFrom (k : Nat) : List Cell → List Nat
  | [] => []
  | c :: rest => if c = none then k :: availFrom (k + 1) rest else availFrom (k + 1) rest

/-- `TicTacToe.available_moves`: the indices of the empty squares. -/
def available_moves (g : TicTacToe) : List Nat :=
  availFrom 0 g.board

/-- `TicTacToe.empty_squares`: whether any empty square remains. -/
def empty_squares (g : TicTacToe) : Bool :=
  !(available_moves g).isEmpty

/-- `TicTacToe.num_empty_squares`. -/
def num_empty_squares (g : TicTacToe) : Nat :=
  (available_moves g).length

/-- `TicTacToe.check_winner`: after `letter` was placed on `square`, test the
row through the square, the column through the square, and - only when the
square index is even - the two diagonals. -/
def check_winner (b : List Cell) (square : Nat) (letter : Letter) : Bool :=
  let row_index := square / ROWS
  let row_start := row_index * ROWS
  let row := (b.drop row_start).take ROWS
  if row.all (fun spot => decide (spot = some letter)) then true
  else
    let col_index := square % COLS
    let column := (List.range ROWS).map (fun i => b.getD (col_index + i * COLS) none)
    if column.all (fun spot => decide (spot = some letter)) then true
    else if square % 2 = 0 then
      let diagonal1 := [b.getD 0 none, b.getD 4 none, b.getD 8 none]
      if diagonal1.all (fun spot => decide (spot = some letter)) then true
      else
        let diagonal2 := [b.getD 2 none, b.getD 4 none, b.getD 6 none]
        diagonal2.all (fun spot => decide (spot = some letter))
    else false

/-- `TicTacToe.make_move`: place `letter` on `square` when the square is
available, recording a winner when the move completes a line; rejected moves
leave the state untouched and return `false`.  The square is an integer, as
in the source, so that out-of-range and negative indices are rejected by the
membership test. -/
def make_move (g : TicTacToe) (square : Int) (letter : Letter) : TicTacToe × Bool :=
  if (available_moves g).any (fun i => decide ((i : Int) = square)) then
    let b := g.board.set square.toNat (some letter)
    if check_winner b square.toNat letter then
      ({ board := b, current_winner := some letter }, true)
    else
      ({ board := b, current_winner := g.current_winner }, true)
  else
    (g, false)

/-- The score value in the minimax result dictionary: an integer, or one of
the two infinities used to seed the maximising/minimising scan. -/
inductive Score where
  | negInf : Score
  | posInf : Score
  | int : Int → Score
deriving DecidableEq, Repr

/-- The strict comparison the source applies to scores (Python `<` on
numbers including `math.inf`). -/
def Score.lt : Score → Score → Bool
  | .negInf, .negInf => false
  | .negInf, _ => true
  | _, .negInf => false
  | .posInf, _ => false
  | .int _, .posInf => true
  | .int a, .int b => decide (a < b)

/-- The dictionary returned by `GeniusComputerPlayer.minimax`. -/
structure MMResult where
  position : Option Nat
  score : Score
deriving DecidableEq, Repr

/-- The adversary computed at the top of `minimax`:
`self.adversary if player == me else me`. -/
def advOf (me adv player : Letter) : Letter :=
  if player = me then adv else me

/-- The terminal score of `minimax` when the previous mover (the computed
adversary) holds the recorded win. -/
def termScore (me adversary : Letter) (g : TicTacToe) : Score :=
  if adversary = me then Score.int ((num_empty_squares g : Int) + 1)
  else Score.int (-((num_empty_squares g : Int) + 1))

/-- One iteration of the move loop of `GeniusComputerPlayer.minimax`:
speculatively apply the move, recurse (through `rec`), undo the move and
clear the win flag, then keep the better of the running best and the
simulated result.  `none` aborts the loop when the recursion ran out of
fuel. -/
def mmStepG (rec : TicTacToe → Letter → Option (MMResult × TicTacToe))
    (me player adversary : Letter)
    (acc : Option (MMResult × TicTacToe)) (possible_move : Nat) :
    Option (MMResult × TicTacToe) :=
  match acc with
  | none => none
  | some (best, gcur) =>
    let g1 := (make_move gcur (Int.ofNat possible_move) player).1
    match rec g1 adversary with
    | none => none
    | some (sim0, g2) =>
      let g3 : TicTacToe :=
        { board := g2.board.set possible_move none, current_winner := none }
      let sim : MMResult := { sim0 with position := some possible_move }
      if player = me then
        if Score.lt best.score sim.score then some (sim, g3) else some (best, g3)
      else
        if Score.lt sim.score best.score then some (sim, g3) else some (best, g3)

/-- `GeniusComputerPlayer.minimax`, fuel-indexed.  The result is the pair of
the returned dictionary and the game state as the call leaves it (the Python
method mutates the board speculatively and undoes each move, clearing the
win flag); `none` means the recursion does not finish within `fuel` nested
calls.  The loop threads the mutated state exactly as the source does, with
the move list taken from the state at loop entry. -/
def minimaxF (me adv : Letter) : Nat → TicTacToe → Letter → Option (MMResult × TicTacToe)
  | 0, _, _ => none
  | fuel + 1, game, player =>
    let adversary := advOf me adv player
    if game.current_winner = some adversary then
      some ({ position := none, score := termScore me adversary game }, game)
    else if !(empty_squares game) then
      some ({ position := none, score := Score.int 0 }, game)
    else
      let init : MMResult :=
        if player = me then { position := none, score := Score.negInf }
        else { position := none, score := Score.posInf }
      (available_moves game).foldl
        (mmStepG (fun g' p' => minimaxF me adv fuel g' p') me player adversary)
        (some (init, game))

/-- Modelled from the spec: `random.choice` picks a uniformly random element
of the list; the randomness source is the parameter `r`, reduced modulo the
list length. -/
def randomChoice (r : Nat) (l : List Nat) : Option Nat :=
  l.get? (r % l.length)

/-- `GeniusComputerPlayer.get_move`: a random move on the completely empty
board, otherwise the position of the minimax result.  The second component
is the game state as the call leaves it; the fuel handed to the search is
one more than the number of empty squares, which suffices for every state
the engine can reach. -/
def get_move (me adv : Letter) (r : Nat) (game : TicTacToe) : Option Nat × TicTacToe :=
  if num_empty_squares game = get_rows game * get_cols game then
    (randomChoice r (available_moves game), game)
  else
    match minimaxF me adv (num_empty_squares game + 1) game me with
    | some (res, g2) => (res.position, g2)
    | none => (none, game)

/-- `HumanPlayer.get_move`: keep reading inputs until one parses as an
integer that is an available square, and return it; `parseInt` abstracts
Python's `int`, `none` standing for the `ValueError` of a failed parse, and
the list is the stream of entered lines (`none` overall means the loop is
still waiting for a valid input when the stream runs out). -/
def humanGetMove (parseInt : String → Option Int) (g : TicTacToe) :
    List String → Option Int
  | [] => none
  | s :: rest =>
    match parseInt s with
    | none => humanGetMove parseInt g rest
    | some move =>
      if (available_moves g).any (fun i => decide ((i : Int) = move)) then some move
      else humanGetMove parseInt g rest

/-- A board built by a sequence of `make_move` calls from the fresh game. -/
def playAll (ms : List (Int × Letter)) : TicTacToe :=
  ms.foldl (fun g ml => (make_move g ml.1 ml.2).1) initialGame

/-- The index sets of the eight winning lines of the 3x3 board: the three
rows, the three columns, and the two diagonals. -/
def lineIdxs : List (List Nat) :=
  [[0, 1, 2], [3, 4, 5], [6, 7, 8], [0, 3, 6], [1, 4, 7], [2, 5, 8], [0, 4, 8], [2, 4, 6]]

/-- Whether some full line of the board is set entirely to `m`. -/
def lineWin (b : List Cell) (m : Letter) : Bool :=
  lineIdxs.any (fun L => L.all (fun i => decide (b.getD i none = some m)))

/-- The row through `square`, as `check_winner` slices it. -/
def rowAll (b : List Cell) (square : Nat) (letter : Letter) : Bool :=
  ((b.drop (square / ROWS * ROWS)).take ROWS).all (fun spot => decide (spot = some letter))

/-- The column through `square`, as `check_winner` gathers it. -/
def colAll (b : List Cell) (square : Nat) (letter : Letter) : Bool :=
  ((List.range ROWS).map (fun i => b.getD (square % COLS + i * COLS) none)).all
    (fun spot => decide (spot = some letter))

/-- Either diagonal, as `check_winner` gathers them. -/
def diagsAll (b : List Cell) (letter : Letter) : Bool :=
  ([b.getD 0 none, b.getD 4 none, b.getD 8 none].all (fun spot => decide (spot = some letter)))
    || ([b.getD 2 none, b.getD 4 none, b.getD 6 none].all (fun spot => decide (spot = some letter)))

/-- The state after an accepted move of `letter` on square `m`. -/
def moveState (g : TicTacToe) (m : Nat) (letter : Letter) : TicTacToe :=
  { board := g.board.set m (some letter),
    current_winner :=
      if check_winner (g.board.set m (some letter)) m letter then some letter
      else g.current_winner }

/-! ## C2: terminal scoring of the minimax search -/

/-- C2 counterexample input: a full board whose recorded winner is the
engine's own mark `x`, with `x` also the player passed to the call.  The
claim demands the terminal score `+(empty cells + 1) = +1`; the code's first
base case tests the winner against the computed adversary `o`, misses, and
the full-board case returns 0. -/
def c2CexGame : TicTacToe :=
  { board := [some Letter.X, some Letter.X, some Letter.X,
              some Letter.O, some Letter.O, some Letter.X,
              some Letter.O, some Letter.X, some Letter.O],
    current_winner := some Letter.X }

/-! ## C7: the forced-move scenario -/

/-- C7 scenario board: `[o, o, _, x, x, _, _, _, _]` with `x` to move. -/
def c7Game : TicTacToe :=
  { board := [some Letter.O, some Letter.O, none,
              some Letter.X, some Letter.X, none,
              none, none, none],
    current_winner := none }

/-- The winner field tracks the completed lines: with no recorded winner no
line is complete, and a recorded winner always holds a complete line. -/
def winnerInv (g : TicTacToe) : Prop :=
  g.board.length = 9 ∧
  (g.current_winner = none → ∀ m, lineWin g.board m = false) ∧
  (∀ w, g.current_winner = some w → lineWin g.board w = true)

/-- The score the loop sees for move `m`: the score of the recursive call on
the state after the move, at its canonical fuel. -/
def childScore (me adv : Letter) (g : TicTacToe) (player : Letter) (m : Nat) : Score :=
  match minimaxF me adv (num_empty_squares g) (moveState g m player) (advOf me adv player) with
  | some (res, _) => res.score
  | none => Score.int 0

/-- The comparison step of the move loop, on a pure pair of move and score. -/
def stepChoice (me player : Letter) (best : MMResult) (m : Nat) (s : Score) : MMResult :=
  let sim : MMResult := { position := some m, score := s }
  if player = me then
    if Score.lt best.score sim.score then sim else best
  else
    if Score.lt sim.score best.score then sim else best

/-- The move loop as a pure left fold over move-score pairs, seeded with the
infinite sentinel of the maximising or minimising scan. -/
def bestFold (me player : Letter) (l : List (Nat × Score)) : MMResult :=
  l.foldl (fun best p => stepChoice me player best p.1 p.2)
    (if player = me then { position := none, score := Score.negInf }
     else { position := none, score := Score.posInf })

/-- The dictionary `minimax` returns from a clean (no recorded winner)
state, computed without state threading. -/
def mmPure (me adv : Letter) (g : TicTacToe) (player : Letter) : MMResult :=
  if empty_squares g then
    bestFold me player ((available_moves g).map (fun m => (m, childScore me adv g player m)))
  else { position := none, score := Score.int 0 }

/-- A state with one move played: `x` on the centre square. -/
def midGame : TicTacToe :=
  { board := [none, none, none, none, some Letter.X, none, none, none, none],
    current_winner := none }

/-! ## A no-lose certificate search -/

/-- Candidate moves reordered centre-and-corners first (a search-order
heuristic; the list keeps exactly the members of `l`). -/
def prefOrder (l : List Nat) : List Nat :=
  [4, 0, 2, 6, 8, 1, 3, 5, 7].filter (fun m => decide (m ∈ l)) ++
    l.filter (fun m => !(decide (m ∈ [4, 0, 2, 6, 8, 1, 3, 5, 7])))

/-- Whether playing `m` wins on the spot for `player`. -/
def winsNow (g : TicTacToe) (player : Letter) (m : Nat) : Bool :=
  match (moveState g m player).current_winner with
  | some w => decide (w = player)
  | none => false

/-- Candidate moves with the immediately winning ones first, then the rest,
each part centre-and-corners first. -/
def sideOrder (g : TicTacToe) (player : Letter) (l : List Nat) : List Nat :=
  (prefOrder l).filter (fun m => winsNow g player m) ++
    (prefOrder l).filter (fun m => !(winsNow g player m))

/-- The opposing mark. -/
def otherL : Letter → Letter
  | Letter.X => Letter.O
  | Letter.O => Letter.X

/-- `me` cannot lose within `fuel` plies: on `me`'s turns some legal move
wins at once or keeps the guarantee, and on the opponent's turns every
legal move fails to win at once and keeps the guarantee. -/
def noLoseF (me : Letter) : Nat → TicTacToe → Letter → Bool
  | 0, _, _ => false
  | fuel + 1, g, player =>
    if empty_squares g then
      if player = me then
        (sideOrder g me (available_moves g)).any (fun m =>
          match (moveState g m me).current_winner with
          | some w => decide (w = me)
          | none => noLoseF me fuel (moveState g m me) (otherL me))
      else
        (sideOrder g player (available_moves g)).all (fun m =>
          match (moveState g m player).current_winner with
          | some _ => false
          | none => noLoseF me fuel (moveState g m player) me)
    else true

/-! ## The game loop of `game.py` -/

/-- `play` from `game.py`: alternate between the two players (selected by
their letters, `player_1` holding `l1`) while empty squares remain; each
turn asks the mover's strategy for a square and plays it through
`make_move` (a rejected move leaves the board unchanged and the turn
passes), returning the mover's letter as soon as a winner is recorded and
`None` for a tie.  Fuel-indexed; `none` means the loop is still running
after `fuel` iterations. -/
def play (s1 s2 : TicTacToe → Int) (l1 l2 : Letter) :
    Nat → TicTacToe → Letter → Option (Option Letter)
  | 0, _, _ => none
  | fuel + 1, g, letter =>
    if empty_squares g then
      match ((make_move g ((if letter = l1 then s1 else s2) g) letter).1).current_winner with
      | some _ => some (some letter)
      | none =>
        play s1 s2 l1 l2 fuel
          ((make_move g ((if letter = l1 then s1 else s2) g) letter).1)
          (if letter = l1 then l2 else l1)
    else some none

/-- A strategy that always proposes some available square on a live board:
the move sequences of such a player are exactly the alternating legal move
sequences. -/
def legalStrat (t : TicTacToe → Int) : Prop :=
  ∀ g : TicTacToe, g.current_winner = none → empty_squares g = true →
    ∃ m ∈ available_moves g, t g = Int.ofNat m

/-- The engine as a strategy for the game loop: the square chosen by
`get_move`, with the randomness of the opening drawn from `r`. -/
def engineStrat (me adv : Letter) (r : TicTacToe → Nat) (g : TicTacToe) : Int :=
  match (get_move me adv (r g) g).1 with
  | some m => Int.ofNat m
  | none => 0

/-- A simple legal opponent: always the first available square. -/
def firstAvail (g : TicTacToe) : Int :=
  Int.ofNat ((available_moves g).headD 0)

/-! ## Basic facts about the board operations -/

theorem mem_availFrom {l : List Cell} {k i : Nat} :
    i ∈ availFrom k l ↔ k ≤ i ∧ l.get? (i - k) = some none := by
  induction l generalizing k with
  | nil => simp [availFrom]
  | cons c rest ih =>
    rcases Nat.lt_trichotomy i k with hik | heq | hik
    · constructor
      · intro hmem
        exfalso
        have h2 : i ∈ availFrom (k + 1) rest → False := by
          intro hm
          have := (ih (k := k + 1)).mp hm
          omega
        by_cases hc : c = none
        · rw [availFrom, if_pos hc] at hmem
          rcases List.mem_cons.mp hmem with rfl | hm
          · omega
          · exact h2 hm
        · rw [availFrom, if_neg hc] at hmem
          exact h2 hmem
      · rintro ⟨hk, -⟩
        omega
    · subst heq
      constructor
      · intro hmem
        refine ⟨le_refl _, ?_⟩
        rw [Nat.sub_self]
        by_cases hc : c = none
        · rw [hc]
          rfl
        · rw [availFrom, if_neg hc] at hmem
          have := (ih (k := i + 1)).mp hmem
          omega
      · rintro ⟨-, hget⟩
        rw [Nat.sub_self] at hget
        have hc : c = none := by
          have : some c = some (none : Cell) := hget
          injection this
        rw [availFrom, if_pos hc]
        exact List.mem_cons_self _ _
    · have htail : (c :: rest).get? (i - k) = rest.get? (i - (k + 1)) := by
        rw [show i - k = (i - (k + 1)) + 1 by omega]
        rfl
      have hmain : i ∈ availFrom (k + 1) rest ↔
          (k + 1 ≤ i ∧ rest.get? (i - (k + 1)) = some none) := ih
      by_cases hc : c = none
      · rw [availFrom, if_pos hc, List.mem_cons, hmain, htail]
        constructor
        · rintro (rfl | ⟨h1, h2⟩)
          · omega
          · exact ⟨by omega, h2⟩
        · rintro ⟨h1, h2⟩
          exact Or.inr ⟨by omega, h2⟩
      · rw [availFrom, if_neg hc, hmain, htail]
        constructor
        · rintro ⟨h1, h2⟩
          exact ⟨by omega, h2⟩
        · rintro ⟨h1, h2⟩
          exact ⟨by omega, h2⟩

theorem mem_available_moves {g : TicTacToe} {i : Nat} :
    i ∈ available_moves g ↔ g.board.get? i = some none := by
  rw [available_moves, mem_availFrom]
  simp

theorem available_moves_lt {g : TicTacToe} {i : Nat} (h : i ∈ available_moves g) :
    i < g.board.length := by
  rw [mem_available_moves] at h
  exact List.get?_eq_some.mp h |>.1

theorem availFrom_set_occupied {l : List Cell} {j : Nat} (x : Letter)
    (hj : l.get? j = some none) :
    ∀ k, availFrom k (l.set j (some x)) = (availFrom k l).erase (k + j) := by
  induction l generalizing j with
  | nil => simp at hj
  | cons c rest ih =>
    intro k
    cases j with
    | zero =>
      have hc : c = none := by
        have : some c = some (none : Cell) := hj
        injection this
      subst hc
      simp only [List.set]
      rw [availFrom, if_neg (by simp), availFrom, if_pos rfl]
      show availFrom (k + 1) rest = (k :: availFrom (k + 1) rest).erase k
      rw [List.erase_cons_head]
    | succ j' =>
      have hj' : rest.get? j' = some none := hj
      have hidx : k + (j' + 1) = (k + 1) + j' := by omega
      simp only [List.set]
      by_cases hc : c = none
      · rw [availFrom, if_pos hc, availFrom, if_pos hc, hidx,
          List.erase_cons_tail (by simp only [beq_iff_eq]; omega), ih hj' (k + 1)]
      · rw [availFrom, if_neg hc, availFrom, if_neg hc, hidx, ih hj' (k + 1)]

theorem num_empty_after_set {g : TicTacToe} {m : Nat} (x : Letter)
    (hm : m ∈ available_moves g) (w : Option Letter) :
    available_moves { board := g.board.set m (some x), current_winner := w }
      = (available_moves g).erase m := by
  have hj : g.board.get? m = some none := mem_available_moves.mp hm
  have := availFrom_set_occupied x hj 0
  simpa [available_moves] using this

theorem available_moves_nodup (g : TicTacToe) : (available_moves g).Nodup := by
  have h : ∀ (l : List Cell) (k : Nat), (availFrom k l).Nodup ∧ ∀ i ∈ availFrom k l, k ≤ i := by
    intro l
    induction l with
    | nil => intro k; simp [availFrom]
    | cons c rest ih =>
      intro k
      by_cases hc : c = none
      · rw [availFrom, if_pos hc]
        refine ⟨List.nodup_cons.mpr ⟨fun hmem => ?_, (ih (k + 1)).1⟩, ?_⟩
        · have := (ih (k + 1)).2 k hmem
          omega
        · intro i hi
          rcases List.mem_cons.mp hi with rfl | hi'
          · omega
          · have := (ih (k + 1)).2 i hi'
            omega
      · rw [availFrom, if_neg hc]
        refine ⟨(ih (k + 1)).1, fun i hi => ?_⟩
        have := (ih (k + 1)).2 i hi
        omega
  exact (h g.board 0).1

theorem length_erase_of_mem_avail {g : TicTacToe} {m : Nat} (hm : m ∈ available_moves g) :
    ((available_moves g).erase m).length + 1 = (available_moves g).length := by
  rw [List.length_erase_of_mem hm]
  have : 0 < (available_moves g).length := List.length_pos.mpr (List.ne_nil_of_mem hm)
  omega

/-- Setting an available square back to empty restores the original board. -/
theorem set_restore {g : TicTacToe} {m : Nat} (hm : m ∈ available_moves g) (x : Letter) :
    (g.board.set m (some x)).set m none = g.board := by
  have hj : g.board.get? m = some none := mem_available_moves.mp hm
  rw [List.set_set]
  apply List.ext_get?
  intro n
  by_cases hn : n = m
  · subst hn
    rw [List.get?_set_eq]
    cases h : g.board.get? n with
    | none => simp_all
    | some c =>
      rw [h] at hj
      injection hj with hc
      simp [hc, List.get?_eq_some.mp h |>.1, h]
  · rw [List.get?_set_ne _ _ (Ne.symm hn)]

theorem make_move_reject {g : TicTacToe} {sq : Int} {letter : Letter}
    (h : ∀ i ∈ available_moves g, (i : Int) ≠ sq) :
    make_move g sq letter = (g, false) := by
  rw [make_move, if_neg]
  intro hany
  rcases List.any_eq_true.mp hany with ⟨i, hi, hdec⟩
  exact h i hi (of_decide_eq_true hdec)

theorem make_move_accept {g : TicTacToe} {m : Nat} (hm : m ∈ available_moves g)
    (letter : Letter) :
    make_move g (Int.ofNat m) letter =
      ({ board := g.board.set m (some letter),
         current_winner :=
           if check_winner (g.board.set m (some letter)) m letter then some letter
           else g.current_winner }, true) := by
  rw [make_move, if_pos]
  · have htn : (Int.ofNat m).toNat = m := rfl
    rw [htn]
    by_cases hw : check_winner (g.board.set m (some letter)) m letter
    · rw [if_pos hw, if_pos hw]
    · rw [if_neg hw, if_neg hw]
  · exact List.any_eq_true.mpr ⟨m, hm, by simp⟩

theorem make_move_accept' {g : TicTacToe} {m : Nat} (hm : m ∈ available_moves g)
    (letter : Letter) :
    make_move g (Int.ofNat m) letter = (moveState g m letter, true) :=
  make_move_accept hm letter

theorem moveState_winner_cases {g : TicTacToe} (m : Nat) (letter : Letter) :
    (moveState g m letter).current_winner = some letter ∨
      (moveState g m letter).current_winner = g.current_winner := by
  rw [moveState]
  by_cases hw : check_winner (g.board.set m (some letter)) m letter
  · left; simp [hw]
  · right; simp [hw]

theorem num_empty_moveState {g : TicTacToe} {m : Nat} (hm : m ∈ available_moves g)
    (letter : Letter) :
    num_empty_squares (moveState g m letter) + 1 = num_empty_squares g := by
  have h1 : available_moves (moveState g m letter) = (available_moves g).erase m := by
    rw [moveState]
    by_cases hw : check_winner (g.board.set m (some letter)) m letter
    · simp only [if_pos hw]
      exact num_empty_after_set letter hm _
    · simp only [if_neg hw]
      exact num_empty_after_set letter hm _
  rw [num_empty_squares, num_empty_squares, h1]
  exact length_erase_of_mem_avail hm

theorem avail_moveState {g : TicTacToe} {m : Nat} (hm : m ∈ available_moves g)
    (letter : Letter) :
    available_moves (moveState g m letter) = (available_moves g).erase m := by
  rw [moveState]
  by_cases hw : check_winner (g.board.set m (some letter)) m letter
  · simp only [if_pos hw]
    exact num_empty_after_set letter hm _
  · simp only [if_neg hw]
    exact num_empty_after_set letter hm _

/-! ## C5: available moves and move acceptance -/

/-- C5: `available_moves` returns exactly the indices of empty cells, and
`make_move` rejects a square (returning `false` and leaving the state alone)
exactly when it is not an available move, otherwise accepting it and writing
the letter into the cell. -/
theorem available_moves_and_accept_reject :
    (∀ (g : TicTacToe) (i : Nat), i ∈ available_moves g ↔ g.board.get? i = some none) ∧
    (∀ (g : TicTacToe) (sq : Int) (letter : Letter),
      ((make_move g sq letter).2 = false ↔ ∀ i ∈ available_moves g, (i : Int) ≠ sq) ∧
      (∀ m : Nat, m ∈ available_moves g → (m : Int) = sq →
        (make_move g sq letter).2 = true ∧
          (make_move g sq letter).1.board = g.board.set m (some letter))) := by
  constructor
  · intro g i
    exact mem_available_moves
  · intro g sq letter
    constructor
    · constructor
      · intro hfalse i hi heq
        have := make_move_accept (m := i) hi letter
        rw [show Int.ofNat i = sq from heq] at this
        rw [this] at hfalse
        simp at hfalse
      · intro h
        rw [make_move_reject h]
    · intro m hm heq
      have := make_move_accept (m := m) hm letter
      rw [show Int.ofNat m = sq from heq] at this
      rw [this]
      constructor
      · rfl
      · by_cases hw : check_winner (g.board.set m (some letter)) m letter <;> simp

/-- C5 witness at a concrete board: square 4 of the fresh board is available,
and playing it writes the mark, while the occupied square is then rejected. -/
theorem available_moves_and_accept_reject_witness :
    (4 ∈ available_moves initialGame ↔ initialGame.board.get? 4 = some none) ∧
    ((make_move initialGame 4 Letter.X).2 = false ↔
      ∀ i ∈ available_moves initialGame, (i : Int) ≠ 4) :=
  ⟨available_moves_and_accept_reject.1 initialGame 4,
   (available_moves_and_accept_reject.2 initialGame 4 Letter.X).1⟩

/-! ## C10: rejected moves are atomic no-ops -/

/-- C10: for every square that is not an available move - occupied, negative
or out of range - `make_move` returns `false` and leaves the board and the
recorded winner untouched. -/
theorem make_move_reject_noop (g : TicTacToe) (sq : Int) (letter : Letter)
    (h : ∀ i ∈ available_moves g, (i : Int) ≠ sq) :
    (make_move g sq letter).2 = false ∧
      (make_move g sq letter).1.board = g.board ∧
      (make_move g sq letter).1.current_winner = g.current_winner := by
  rw [make_move_reject h]
  exact ⟨rfl, rfl, rfl⟩

/-- C10 witness: a negative square on the fresh board is rejected without
touching the state. -/
theorem make_move_reject_noop_witness :
    (make_move initialGame (-1) Letter.X).2 = false ∧
      (make_move initialGame (-1) Letter.X).1.board = initialGame.board ∧
      (make_move initialGame (-1) Letter.X).1.current_winner = initialGame.current_winner :=
  make_move_reject_noop initialGame (-1) Letter.X (by decide)

/-! ## C9: invalid human input is recovered by re-prompting -/

/-- C9: an input that fails to parse or names an unavailable square is
consumed by the retry loop (never surfacing as a failure), and whenever the
loop returns a move, that move was entered, parsed as an integer, and is an
available square. -/
theorem human_get_move_retries_and_validates :
    (∀ (parseInt : String → Option Int) (g : TicTacToe) (s : String) (rest : List String),
      (parseInt s = none ∨
        ∀ k, parseInt s = some k → ∀ i ∈ available_moves g, (i : Int) ≠ k) →
      humanGetMove parseInt g (s :: rest) = humanGetMove parseInt g rest) ∧
    (∀ (parseInt : String → Option Int) (g : TicTacToe) (inputs : List String) (m : Int),
      humanGetMove parseInt g inputs = some m →
      (∃ i ∈ available_moves g, (i : Int) = m) ∧ ∃ s ∈ inputs, parseInt s = some m) := by
  constructor
  · intro parseInt g s rest hbad
    cases hp : parseInt s with
    | none => simp only [humanGetMove, hp]
    | some k =>
      simp only [humanGetMove, hp]
      rw [if_neg]
      intro hany
      rcases List.any_eq_true.mp hany with ⟨i, hi, hdec⟩
      rcases hbad with hnone | hinval
      · rw [hp] at hnone
        exact Option.noConfusion hnone
      · exact hinval k hp i hi (of_decide_eq_true hdec)
  · intro parseInt g inputs
    induction inputs with
    | nil => intro m h; exact absurd h (by rw [humanGetMove]; simp)
    | cons s rest ih =>
      intro m h
      cases hp : parseInt s with
      | none =>
        simp only [humanGetMove, hp] at h
        rcases ih m h with ⟨h1, s', hs', hp'⟩
        exact ⟨h1, s', List.mem_cons_of_mem _ hs', hp'⟩
      | some k =>
        simp only [humanGetMove, hp] at h
        by_cases hav : ((available_moves g).any (fun i => decide ((i : Int) = k))) = true
        · rw [if_pos hav] at h
          injection h with hmk
          subst hmk
          rcases List.any_eq_true.mp hav with ⟨i, hi, hdec⟩
          exact ⟨⟨i, hi, of_decide_eq_true hdec⟩, s, List.mem_cons_self _ _, hp⟩
        · rw [if_neg hav] at h
          rcases ih m h with ⟨h1, s', hs', hp'⟩
          exact ⟨h1, s', List.mem_cons_of_mem _ hs', hp'⟩

/-- C9 witness: with a parser recognising only the string 4, a garbage line
followed by 4 makes the loop skip the garbage and return the valid move. -/
theorem human_get_move_retries_and_validates_witness :
    ((fun s => if s = "4" then some (4 : Int) else none) "nope" = none ∨
      ∀ k, (fun s => if s = "4" then some (4 : Int) else none) "nope" = some k →
        ∀ i ∈ available_moves initialGame, (i : Int) ≠ k) ∧
    humanGetMove (fun s => if s = "4" then some (4 : Int) else none) initialGame
        ["nope", "4"] =
      humanGetMove (fun s => if s = "4" then some (4 : Int) else none) initialGame ["4"] :=
  ⟨Or.inl rfl,
   human_get_move_retries_and_validates.1 _ initialGame "nope" ["4"] (Or.inl rfl)⟩

/-! ## C8: the opening move is random, not searched -/

/-- C8: on a board whose empty-square count equals the full grid size, the
engine returns the `random.choice` pick over `available_moves` (leaving the
state alone, running no search); the pick is always an available square, and
every available square is obtained under some draw of the randomness. -/
theorem get_move_opening_random (me adv : Letter) (r : Nat) (g : TicTacToe)
    (h : num_empty_squares g = get_rows g * get_cols g) :
    get_move me adv r g = (randomChoice r (available_moves g), g) ∧
    (∀ m, randomChoice r (available_moves g) = some m → m ∈ available_moves g) ∧
    (∀ m ∈ available_moves g, ∃ rr, (get_move me adv rr g).1 = some m) := by
  refine ⟨by rw [get_move, if_pos h], ?_, ?_⟩
  · intro m hm
    exact List.get?_mem hm
  · intro m hm
    rcases List.get_of_mem hm with ⟨⟨i, hi⟩, hget⟩
    refine ⟨i, ?_⟩
    rw [get_move, if_pos h]
    show randomChoice i (available_moves g) = some m
    rw [randomChoice, Nat.mod_eq_of_lt hi, List.get?_eq_get hi, hget]

/-- C8 witness: on the fresh board, draw 13 yields the random element at
index 4 and no search is run. -/
theorem get_move_opening_random_witness :
    num_empty_squares initialGame = get_rows initialGame * get_cols initialGame ∧
    get_move Letter.X Letter.O 13 initialGame =
      (randomChoice 13 (available_moves initialGame), initialGame) :=
  ⟨by decide, (get_move_opening_random Letter.X Letter.O 13 initialGame (by decide)).1⟩

/-- C2 counterexample: on `c2CexGame` with the engine optimising `x` and
`x` to move, the recorded winner is the optimising mark, yet the computed
score is 0 and not `+(empty cells + 1) = +1` as the claim states. -/
theorem minimax_terminal_score_cex :
    c2CexGame.current_winner = some Letter.X ∧
    (minimaxF Letter.X Letter.O 10 c2CexGame Letter.X).map (fun p => p.1.score) =
      some (Score.int 0) ∧
    Score.int 0 ≠ Score.int ((num_empty_squares c2CexGame : Int) + 1) := by
  refine ⟨rfl, by decide, by decide⟩

/-- C2 (amended): the terminal scores hold relative to the adversary the
call computes (the player who moved last): when the recorded winner is that
adversary, the score is `+(empty cells + 1)` if the winner is the optimising
mark and `-(empty cells + 1)` otherwise; and when the recorded winner is not
that adversary and no empty square remains, the score is 0. -/
theorem minimax_terminal_score (me adv : Letter) (g : TicTacToe) (player : Letter)
    (fuel : Nat) :
    (g.current_winner = some (advOf me adv player) →
      minimaxF me adv (fuel + 1) g player =
        some ({ position := none, score := termScore me (advOf me adv player) g }, g) ∧
      termScore me (advOf me adv player) g =
        (if advOf me adv player = me then Score.int ((num_empty_squares g : Int) + 1)
         else Score.int (-((num_empty_squares g : Int) + 1)))) ∧
    (g.current_winner ≠ some (advOf me adv player) → empty_squares g = false →
      minimaxF me adv (fuel + 1) g player =
        some ({ position := none, score := Score.int 0 }, g)) := by
  constructor
  · intro hw
    constructor
    · rw [minimaxF, if_pos hw]
    · rw [termScore]
  · intro hw hempty
    rw [minimaxF, if_neg hw, hempty]
    rfl

/-- C2 (amended) witness: on the counterexample board with the opposing mark
`o` to move, the recorded winner `x` is the computed adversary and the score
is `+(0 empties + 1) = +1`; on a full drawn board the score is 0. -/
theorem minimax_terminal_score_witness :
    (c2CexGame.current_winner = some (advOf Letter.X Letter.O Letter.O) ∧
      minimaxF Letter.X Letter.O 10 c2CexGame Letter.O =
        some ({ position := none,
                score := termScore Letter.X (advOf Letter.X Letter.O Letter.O) c2CexGame },
              c2CexGame)) ∧
    (minimaxF Letter.X Letter.O 10
        { board := c2CexGame.board, current_winner := none } Letter.X =
      some ({ position := none, score := Score.int 0 },
            { board := c2CexGame.board, current_winner := none })) :=
  ⟨⟨by decide,
    ((minimax_terminal_score Letter.X Letter.O c2CexGame Letter.O 9).1 (by decide)).1⟩,
   (minimax_terminal_score Letter.X Letter.O
      { board := c2CexGame.board, current_winner := none } Letter.X 9).2
     (by decide) (by decide)⟩

/-- C7 counterexample: the claim's rationale is wrong on both counts - an
immediate win for `x` does exist (square 5 completes the middle row), and
square 5 does not block `o`'s top-row threat, whose completing square is 2
and stays open after `x` plays 5. -/
theorem c7_rationale_cex :
    (5 ∈ available_moves c7Game ∧
      check_winner (c7Game.board.set 5 (some Letter.X)) 5 Letter.X = true) ∧
    (2 ∈ available_moves { board := c7Game.board.set 5 (some Letter.X),
                           current_winner := some Letter.X } ∧
      check_winner ((c7Game.board.set 5 (some Letter.X)).set 2 (some Letter.O)) 2
          Letter.O = true) := by
  refine ⟨⟨by decide, by decide⟩, by decide, by decide⟩

/-- C7 (amended): on the scenario board the engine playing `x` does return
square 5 - not as a block, but as the immediate win completing the middle
row. -/
theorem c7_engine_plays_five (r : Nat) :
    (get_move Letter.X Letter.O r c7Game).1 = some 5 ∧
    check_winner (c7Game.board.set 5 (some Letter.X)) 5 Letter.X = true := by
  exact ⟨rfl, by decide⟩


theorem ifChain (a b c d : Bool) (P : Prop) [Decidable P] :
    (if a = true then true
     else if b = true then true
     else if P then (if c = true then true else d) else false)
      = (a || b || (decide P && (c || d))) := by
  by_cases hP : P <;> cases a <;> cases b <;> cases c <;> cases d <;> simp [hP]

theorem check_winner_char (b : List Cell) (square : Nat) (letter : Letter) :
    check_winner b square letter =
      (rowAll b square letter || colAll b square letter ||
        (decide (square % 2 = 0) && diagsAll b letter)) := by
  simp only [check_winner, rowAll, colAll, diagsAll]
  exact ifChain _ _ _ _ _

theorem board9_cases {b : List Cell} (h : b.length = 9) :
    ∃ c0 c1 c2 c3 c4 c5 c6 c7 c8 : Cell,
      b = [c0, c1, c2, c3, c4, c5, c6, c7, c8] := by
  rcases b with _ | ⟨c0, b⟩
  · simp at h
  rcases b with _ | ⟨c1, b⟩
  · simp at h
  rcases b with _ | ⟨c2, b⟩
  · simp at h
  rcases b with _ | ⟨c3, b⟩
  · simp at h
  rcases b with _ | ⟨c4, b⟩
  · simp at h
  rcases b with _ | ⟨c5, b⟩
  · simp at h
  rcases b with _ | ⟨c6, b⟩
  · simp at h
  rcases b with _ | ⟨c7, b⟩
  · simp at h
  rcases b with _ | ⟨c8, b⟩
  · simp at h
  rcases b with _ | ⟨c9, b⟩
  · exact ⟨c0, c1, c2, c3, c4, c5, c6, c7, c8, rfl⟩
  · simp at h

theorem lineWin_set_of_empty {b : List Cell} {sq : Nat} (v : Cell)
    (hemp : b.get? sq = some none) {w : Letter} (hw : lineWin b w = true) :
    lineWin (b.set sq v) w = true := by
  rcases List.any_eq_true.mp hw with ⟨L, hL, hall⟩
  refine List.any_eq_true.mpr ⟨L, hL, ?_⟩
  rw [List.all_eq_true] at hall ⊢
  intro i hi
  have h1 := hall i hi
  simp only [decide_eq_true_eq] at h1 ⊢
  by_cases hisq : i = sq
  · subst hisq
    exfalso
    rw [List.getD_eq_get?, hemp] at h1
    simp at h1
  · rw [List.getD_eq_get?, List.get?_set_ne _ _ (fun h => hisq h.symm), ← List.getD_eq_get?]
    exact h1

theorem orl {a b : Bool} (h : a = true) : (a || b) = true := by
  rw [h]
  rfl

theorem orr {a b : Bool} (h : b = true) : (a || b) = true := by
  rw [h]
  exact Bool.or_true a

theorem orf {a b : Bool} (h1 : a = false) (h2 : b = false) : (a || b) = false := by
  rw [h1, h2]
  rfl

theorem orfmp {a b : Bool} (h : (a || b) = false) : a = false ∧ b = false :=
  Bool.or_eq_false_iff.mp h

theorem andf1 {a b : Bool} (h : a = false) : (a && b) = false := by
  rw [h]
  rfl

theorem andf2 {a b : Bool} (h : b = false) : (a && b) = false := by
  rw [h]
  exact Bool.and_false a

theorem diag_first {P : Prop} [Decidable P] {d1 d2 : Bool}
    (h : (decide P && (d1 || d2)) = false) (hp : P) : d1 = false := by
  rcases Bool.and_eq_false_iff.mp h with h' | h'
  · exact absurd hp (by simpa using h')
  · exact (Bool.or_eq_false_iff.mp h').1

theorem diag_second {P : Prop} [Decidable P] {d1 d2 : Bool}
    (h : (decide P && (d1 || d2)) = false) (hp : P) : d2 = false := by
  rcases Bool.and_eq_false_iff.mp h with h' | h'
  · exact absurd hp (by simpa using h')
  · exact (Bool.or_eq_false_iff.mp h').2

theorem check_winner_lineWin {b : List Cell} {square : Nat} {letter : Letter}
    (hlen : b.length = 9) (hsq : square < 9)
    (hw : check_winner b square letter = true) : lineWin b letter = true := by
  obtain ⟨c0, c1, c2, c3, c4, c5, c6, c7, c8, rfl⟩ := board9_cases hlen
  rw [check_winner_char] at hw
  simp only [diagsAll, Bool.or_eq_true, Bool.and_eq_true] at hw
  rcases show square = 0 ∨ square = 1 ∨ square = 2 ∨ square = 3 ∨ square = 4 ∨
      square = 5 ∨ square = 6 ∨ square = 7 ∨ square = 8 from by omega with
    rfl | rfl | rfl | rfl | rfl | rfl | rfl | rfl | rfl
  · -- square 0
    rcases hw with (h1 | h2) | ⟨-, hd1 | hd2⟩
    · have hc : (decide (c0 = some letter) && (decide (c1 = some letter) && (decide (c2 = some letter) && true))) = true := h1
      show ((decide (c0 = some letter) && (decide (c1 = some letter) && (decide (c2 = some letter) && true))) || ((decide (c3 = some letter) && (decide (c4 = some letter) && (decide (c5 = some letter) && true))) || ((decide (c6 = some letter) && (decide (c7 = some letter) && (decide (c8 = some letter) && true))) || ((decide (c0 = some letter) && (decide (c3 = some letter) && (decide (c6 = some letter) && true))) || ((decide (c1 = some letter) && (decide (c4 = some letter) && (decide (c7 = some letter) && true))) || ((decide (c2 = some letter) && (decide (c5 = some letter) && (decide (c8 = some letter) && true))) || ((decide (c0 = some letter) && (decide (c4 = some letter) && (decide (c8 = some letter) && true))) || ((decide (c2 = some letter) && (decide (c4 = some letter) && (decide (c6 = some letter) && true))) || false)))))))) = true
      exact orl (hc)
    · have hc : (decide (c0 = some letter) && (decide (c3 = some letter) && (decide (c6 = some letter) && true))) = true := h2
      show ((decide (c0 = some letter) && (decide (c1 = some letter) && (decide (c2 = some letter) && true))) || ((decide (c3 = some letter) && (decide (c4 = some letter) && (decide (c5 = some letter) && true))) || ((decide (c6 = some letter) && (decide (c7 = some letter) && (decide (c8 = some letter) && true))) || ((decide (c0 = some letter) && (decide (c3 = some letter) && (decide (c6 = some letter) && true))) || ((decide (c1 = some letter) && (decide (c4 = some letter) && (decide (c7 = some letter) && true))) || ((decide (c2 = some letter) && (decide (c5 = some letter) && (decide (c8 = some letter) && true))) || ((decide (c0 = some letter) && (decide (c4 = some letter) && (decide (c8 = some letter) && true))) || ((decide (c2 = some letter) && (decide (c4 = some letter) && (decide (c6 = some letter) && true))) || false)))))))) = true
      exact orr (orr (orr (orl (hc))))
    · have hc : (decide (c0 = some letter) && (decide (c4 = some letter) && (decide (c8 = some letter) && true))) = true := hd1
      show ((decide (c0 = some letter) && (decide (c1 = some letter) && (decide (c2 = some letter) && true))) || ((decide (c3 = some letter) && (decide (c4 = some letter) && (decide (c5 = some letter) && true))) || ((decide (c6 = some letter) && (decide (c7 = some letter) && (decide (c8 = some letter) && true))) || ((decide (c0 = some letter) && (decide (c3 = some letter) && (decide (c6 = some letter) && true))) || ((decide (c1 = some letter) && (decide (c4 = some letter) && (decide (c7 = some letter) && true))) || ((decide (c2 = some letter) && (decide (c5 = some letter) && (decide (c8 = some letter) && true))) || ((decide (c0 = some letter) && (decide (c4 = some letter) && (decide (c8 = some letter) && true))) || ((decide (c2 = some letter) && (decide (c4 = some letter) && (decide (c6 = some letter) && true))) || false)))))))) = true
      exact orr (orr (orr (orr (orr (orr (orl (hc)))))))
    · have hc : (decide (c2 = some letter) && (decide (c4 = some letter) && (decide (c6 = some letter) && true))) = true := hd2
      show ((decide (c0 = some letter) && (decide (c1 = some letter) && (decide (c2 = some letter) && true))) || ((decide (c3 = some letter) && (decide (c4 = some letter) && (decide (c5 = some letter) && true))) || ((decide (c6 = some letter) && (decide (c7 = some letter) && (decide (c8 = some letter) && true))) || ((decide (c0 = some letter) && (decide (c3 = some letter) && (decide (c6 = some letter) && true))) || ((decide (c1 = some letter) && (decide (c4 = some letter) && (decide (c7 = some letter) && true))) || ((decide (c2 = some letter) && (decide (c5 = some letter) && (decide (c8 = some letter) && true))) || ((decide (c0 = some letter) && (decide (c4 = some letter) && (decide (c8 = some letter) && true))) || ((decide (c2 = some letter) && (decide (c4 = some letter) && (decide (c6 = some letter) && true))) || false)))))))) = true
      exact orr (orr (orr (orr (orr (orr (orr (orl (hc))))))))
  · -- square 1
    rcases hw with (h1 | h2) | ⟨-, hd1 | hd2⟩
    · have hc : (decide (c0 = some letter) && (decide (c1 = some letter) && (decide (c2 = some letter) && true))) = true := h1
      show ((decide (c0 = some letter) && (decide (c1 = some letter) && (decide (c2 = some letter) && true))) || ((decide (c3 = some letter) && (decide (c4 = some letter) && (decide (c5 = some letter) && true))) || ((decide (c6 = some letter) && (decide (c7 = some letter) && (decide (c8 = some letter) && true))) || ((decide (c0 = some letter) && (decide (c3 = some letter) && (decide (c6 = some letter) && true))) || ((decide (c1 = some letter) && (decide (c4 = some letter) && (decide (c7 = some letter) && true))) || ((decide (c2 = some letter) && (decide (c5 = some letter) && (decide (c8 = some letter) && true))) || ((decide (c0 = some letter) && (decide (c4 = some letter) && (decide (c8 = some letter) && true))) || ((decide (c2 = some letter) && (decide (c4 = some letter) && (decide (c6 = some letter) && true))) || false)))))))) = true
      exact orl (hc)
    · have hc : (decide (c1 = some letter) && (decide (c4 = some letter) && (decide (c7 = some letter) && true))) = true := h2
      show ((decide (c0 = some letter) && (decide (c1 = some letter) && (decide (c2 = some letter) && true))) || ((decide (c3 = some letter) && (decide (c4 = some letter) && (decide (c5 = some letter) && true))) || ((decide (c6 = some letter) && (decide (c7 = some letter) && (decide (c8 = some letter) && true))) || ((decide (c0 = some letter) && (decide (c3 = some letter) && (decide (c6 = some letter) && true))) || ((decide (c1 = some letter) && (decide (c4 = some letter) && (decide (c7 = some letter) && true))) || ((decide (c2 = some letter) && (decide (c5 = some letter) && (decide (c8 = some letter) && true))) || ((decide (c0 = some letter) && (decide (c4 = some letter) && (decide (c8 = some letter) && true))) || ((decide (c2 = some letter) && (decide (c4 = some letter) && (decide (c6 = some letter) && true))) || false)))))))) = true
      exact orr (orr (orr (orr (orl (hc)))))
    · have hc : (decide (c0 = some letter) && (decide (c4 = some letter) && (decide (c8 = some letter) && true))) = true := hd1
      show ((decide (c0 = some letter) && (decide (c1 = some letter) && (decide (c2 = some letter) && true))) || ((decide (c3 = some letter) && (decide (c4 = some letter) && (decide (c5 = some letter) && true))) || ((decide (c6 = some letter) && (decide (c7 = some letter) && (decide (c8 = some letter) && true))) || ((decide (c0 = some letter) && (decide (c3 = some letter) && (decide (c6 = some letter) && true))) || ((decide (c1 = some letter) && (decide (c4 = some letter) && (decide (c7 = some letter) && true))) || ((decide (c2 = some letter) && (decide (c5 = some letter) && (decide (c8 = some letter) && true))) || ((decide (c0 = some letter) && (decide (c4 = some letter) && (decide (c8 = some letter) && true))) || ((decide (c2 = some letter) && (decide (c4 = some letter) && (decide (c6 = some letter) && true))) || false)))))))) = true
      exact orr (orr (orr (orr (orr (orr (orl (hc)))))))
    · have hc : (decide (c2 = some letter) && (decide (c4 = some letter) && (decide (c6 = some letter) && true))) = true := hd2
      show ((decide (c0 = some letter) && (decide (c1 = some letter) && (decide (c2 = some letter) && true))) || ((decide (c3 = some letter) && (decide (c4 = some letter) && (decide (c5 = some letter) && true))) || ((decide (c6 = some letter) && (decide (c7 = some letter) && (decide (c8 = some letter) && true))) || ((decide (c0 = some letter) && (decide (c3 = some letter) && (decide (c6 = some letter) && true))) || ((decide (c1 = some letter) && (decide (c4 = some letter) && (decide (c7 = some letter) && true))) || ((decide (c2 = some letter) && (decide (c5 = some letter) && (decide (c8 = some letter) && true))) || ((decide (c0 = some letter) && (decide (c4 = some letter) && (decide (c8 = some letter) && true))) || ((decide (c2 = some letter) && (decide (c4 = some letter) && (decide (c6 = some letter) && true))) || false)))))))) = true
      exact orr (orr (orr (orr (orr (orr (orr (orl (hc))))))))
  · -- square 2
    rcases hw with (h1 | h2) | ⟨-, hd1 | hd2⟩
    · have hc : (decide (c0 = some letter) && (decide (c1 = some letter) && (decide (c2 = some letter) && true))) = true := h1
      show ((decide (c0 = some letter) && (decide (c1 = some letter) && (decide (c2 = some letter) && true))) || ((decide (c3 = some letter) && (decide (c4 = some letter) && (decide (c5 = some letter) && true))) || ((decide (c6 = some letter) && (decide (c7 = some letter) && (decide (c8 = some letter) && true))) || ((decide (c0 = some letter) && (decide (c3 = some letter) && (decide (c6 = some letter) && true))) || ((decide (c1 = some letter) && (decide (c4 = some letter) && (decide (c7 = some letter) && true))) || ((decide (c2 = some letter) && (decide (c5 = some letter) && (decide (c8 = some letter) && true))) || ((decide (c0 = some letter) && (decide (c4 = some letter) && (decide (c8 = some letter) && true))) || ((decide (c2 = some letter) && (decide (c4 = some letter) && (decide (c6 = some letter) && true))) || false)))))))) = true
      exact orl (hc)
    · have hc : (decide (c2 = some letter) && (decide (c5 = some letter) && (decide (c8 = some letter) && true))) = true := h2
      show ((decide (c0 = some letter) && (decide (c1 = some letter) && (decide (c2 = some letter) && true))) || ((decide (c3 = some letter) && (decide (c4 = some letter) && (decide (c5 = some letter) && true))) || ((decide (c6 = some letter) && (decide (c7 = some letter) && (decide (c8 = some letter) && true))) || ((decide (c0 = some letter) && (decide (c3 = some letter) && (decide (c6 = some letter) && true))) || ((decide (c1 = some letter) && (decide (c4 = some letter) && (decide (c7 = some letter) && true))) || ((decide (c2 = some letter) && (decide (c5 = some letter) && (decide (c8 = some letter) && true))) || ((decide (c0 = some letter) && (decide (c4 = some letter) && (decide (c8 = some letter) && true))) || ((decide (c2 = some letter) && (decide (c4 = some letter) && (decide (c6 = some letter) && true))) || false)))))))) = true
      exact orr (orr (orr (orr (orr (orl (hc))))))
    · have hc : (decide (c0 = some letter) && (decide (c4 = some letter) && (decide (c8 = some letter) && true))) = true := hd1
      show ((decide (c0 = some letter) && (decide (c1 = some letter) && (decide (c2 = some letter) && true))) || ((decide (c3 = some letter) && (decide (c4 = some letter) && (decide (c5 = some letter) && true))) || ((decide (c6 = some letter) && (decide (c7 = some letter) && (decide (c8 = some letter) && true))) || ((decide (c0 = some letter) && (decide (c3 = some letter) && (decide (c6 = some letter) && true))) || ((decide (c1 = some letter) && (decide (c4 = some letter) && (decide (c7 = some letter) && true))) || ((decide (c2 = some letter) && (decide (c5 = some letter) && (decide (c8 = some letter) && true))) || ((decide (c0 = some letter) && (decide (c4 = some letter) && (decide (c8 = some letter) && true))) || ((decide (c2 = some letter) && (decide (c4 = some letter) && (decide (c6 = some letter) && true))) || false)))))))) = true
      exact orr (orr (orr (orr (orr (orr (orl (hc)))))))
    · have hc : (decide (c2 = some letter) && (decide (c4 = some letter) && (decide (c6 = some letter) && true))) = true := hd2
      show ((decide (c0 = some letter) && (decide (c1 = some letter) && (decide (c2 = some letter) && true))) || ((decide (c3 = some letter) && (decide (c4 = some letter) && (decide (c5 = some letter) && true))) || ((decide (c6 = some letter) && (decide (c7 = some letter) && (decide (c8 = some letter) && true))) || ((decide (c0 = some letter) && (decide (c3 = some letter) && (decide (c6 = some letter) && true))) || ((decide (c1 = some letter) && (decide (c4 = some letter) && (decide (c7 = some letter) && true))) || ((decide (c2 = some letter) && (decide (c5 = some letter) && (decide (c8 = some letter) && true))) || ((decide (c0 = some letter) && (decide (c4 = some letter) && (decide (c8 = some letter) && true))) || ((decide (c2 = some letter) && (decide (c4 = some letter) && (decide (c6 = some letter) && true))) || false)))))))) = true
      exact orr (orr (orr (orr (orr (orr (orr (orl (hc))))))))
  · -- square 3
    rcases hw with (h1 | h2) | ⟨-, hd1 | hd2⟩
    · have hc : (decide (c3 = some letter) && (decide (c4 = some letter) && (decide (c5 = some letter) && true))) = true := h1
      show ((decide (c0 = some letter) && (decide (c1 = some letter) && (decide (c2 = some letter) && true))) || ((decide (c3 = some letter) && (decide (c4 = some letter) && (decide (c5 = some letter) && true))) || ((decide (c6 = some letter) && (decide (c7 = some letter) && (decide (c8 = some letter) && true))) || ((decide (c0 = some letter) && (decide (c3 = some letter) && (decide (c6 = some letter) && true))) || ((decide (c1 = some letter) && (decide (c4 = some letter) && (decide (c7 = some letter) && true))) || ((decide (c2 = some letter) && (decide (c5 = some letter) && (decide (c8 = some letter) && true))) || ((decide (c0 = some letter) && (decide (c4 = some letter) && (decide (c8 = some letter) && true))) || ((decide (c2 = some letter) && (decide (c4 = some letter) && (decide (c6 = some letter) && true))) || false)))))))) = true
      exact orr (orl (hc))
    · have hc : (decide (c0 = some letter) && (decide (c3 = some letter) && (decide (c6 = some letter) && true))) = true := h2
      show ((decide (c0 = some letter) && (decide (c1 = some letter) && (decide (c2 = some letter) && true))) || ((decide (c3 = some letter) && (decide (c4 = some letter) && (decide (c5 = some letter) && true))) || ((decide (c6 = some letter) && (decide (c7 = some letter) && (decide (c8 = some letter) && true))) || ((decide (c0 = some letter) && (decide (c3 = some letter) && (decide (c6 = some letter) && true))) || ((decide (c1 = some letter) && (decide (c4 = some letter) && (decide (c7 = some letter) && true))) || ((decide (c2 = some letter) && (decide (c5 = some letter) && (decide (c8 = some letter) && true))) || ((decide (c0 = some letter) && (decide (c4 = some letter) && (decide (c8 = some letter) && true))) || ((decide (c2 = some letter) && (decide (c4 = some letter) && (decide (c6 = some letter) && true))) || false)))))))) = true
      exact orr (orr (orr (orl (hc))))
    · have hc : (decide (c0 = some letter) && (decide (c4 = some letter) && (decide (c8 = some letter) && true))) = true := hd1
      show ((decide (c0 = some letter) && (decide (c1 = some letter) && (decide (c2 = some letter) && true))) || ((decide (c3 = some letter) && (decide (c4 = some letter) && (decide (c5 = some letter) && true))) || ((decide (c6 = some letter) && (decide (c7 = some letter) && (decide (c8 = some letter) && true))) || ((decide (c0 = some letter) && (decide (c3 = some letter) && (decide (c6 = some letter) && true))) || ((decide (c1 = some letter) && (decide (c4 = some letter) && (decide (c7 = some letter) && true))) || ((decide (c2 = some letter) && (decide (c5 = some letter) && (decide (c8 = some letter) && true))) || ((decide (c0 = some letter) && (decide (c4 = some letter) && (decide (c8 = some letter) && true))) || ((decide (c2 = some letter) && (decide (c4 = some letter) && (decide (c6 = some letter) && true))) || false)))))))) = true
      exact orr (orr (orr (orr (orr (orr (orl (hc)))))))
    · have hc : (decide (c2 = some letter) && (decide (c4 = some letter) && (decide (c6 = some letter) && true))) = true := hd2
      show ((decide (c0 = some letter) && (decide (c1 = some letter) && (decide (c2 = some letter) && true))) || ((decide (c3 = some letter) && (decide (c4 = some letter) && (decide (c5 = some letter) && true))) || ((decide (c6 = some letter) && (decide (c7 = some letter) && (decide (c8 = some letter) && true))) || ((decide (c0 = some letter) && (decide (c3 = some letter) && (decide (c6 = some letter) && true))) || ((decide (c1 = some letter) && (decide (c4 = some letter) && (decide (c7 = some letter) && true))) || ((decide (c2 = some letter) && (decide (c5 = some letter) && (decide (c8 = some letter) && true))) || ((decide (c0 = some letter) && (decide (c4 = some letter) && (decide (c8 = some letter) && true))) || ((decide (c2 = some letter) && (decide (c4 = some letter) && (decide (c6 = some letter) && true))) || false)))))))) = true
      exact orr (orr (orr (orr (orr (orr (orr (orl (hc))))))))
  · -- square 4
    rcases hw with (h1 | h2) | ⟨-, hd1 | hd2⟩
    · have hc : (decide (c3 = some letter) && (decide (c4 = some letter) && (decide (c5 = some letter) && true))) = true := h1
      show ((decide (c0 = some letter) && (decide (c1 = some letter) && (decide (c2 = some letter) && true))) || ((decide (c3 = some letter) && (decide (c4 = some letter) && (decide (c5 = some letter) && true))) || ((decide (c6 = some letter) && (decide (c7 = some letter) && (decide (c8 = some letter) && true))) || ((decide (c0 = some letter) && (decide (c3 = some letter) && (decide (c6 = some letter) && true))) || ((decide (c1 = some letter) && (decide (c4 = some letter) && (decide (c7 = some letter) && true))) || ((decide (c2 = some letter) && (decide (c5 = some letter) && (decide (c8 = some letter) && true))) || ((decide (c0 = some letter) && (decide (c4 = some letter) && (decide (c8 = some letter) && true))) || ((decide (c2 = some letter) && (decide (c4 = some letter) && (decide (c6 = some letter) && true))) || false)))))))) = true
      exact orr (orl (hc))
    · have hc : (decide (c1 = some letter) && (decide (c4 = some letter) && (decide (c7 = some letter) && true))) = true := h2
      show ((decide (c0 = some letter) && (decide (c1 = some letter) && (decide (c2 = some letter) && true))) || ((decide (c3 = some letter) && (decide (c4 = some letter) && (decide (c5 = some letter) && true))) || ((decide (c6 = some letter) && (decide (c7 = some letter) && (decide (c8 = some letter) && true))) || ((decide (c0 = some letter) && (decide (c3 = some letter) && (decide (c6 = some letter) && true))) || ((decide (c1 = some letter) && (decide (c4 = some letter) && (decide (c7 = some letter) && true))) || ((decide (c2 = some letter) && (decide (c5 = some letter) && (decide (c8 = some letter) && true))) || ((decide (c0 = some letter) && (decide (c4 = some letter) && (decide (c8 = some letter) && true))) || ((decide (c2 = some letter) && (decide (c4 = some letter) && (decide (c6 = some letter) && true))) || false)))))))) = true
      exact orr (orr (orr (orr (orl (hc)))))
    · have hc : (decide (c0 = some letter) && (decide (c4 = some letter) && (decide (c8 = some letter) && true))) = true := hd1
      show ((decide (c0 = some letter) && (decide (c1 = some letter) && (decide (c2 = some letter) && true))) || ((decide (c3 = some letter) && (decide (c4 = some letter) && (decide (c5 = some letter) && true))) || ((decide (c6 = some letter) && (decide (c7 = some letter) && (decide (c8 = some letter) && true))) || ((decide (c0 = some letter) && (decide (c3 = some letter) && (decide (c6 = some letter) && true))) || ((decide (c1 = some letter) && (decide (c4 = some letter) && (decide (c7 = some letter) && true))) || ((decide (c2 = some letter) && (decide (c5 = some letter) && (decide (c8 = some letter) && true))) || ((decide (c0 = some letter) && (decide (c4 = some letter) && (decide (c8 = some letter) && true))) || ((decide (c2 = some letter) && (decide (c4 = some letter) && (decide (c6 = some letter) && true))) || false)))))))) = true
      exact orr (orr (orr (orr (orr (orr (orl (hc)))))))
    · have hc : (decide (c2 = some letter) && (decide (c4 = some letter) && (decide (c6 = some letter) && true))) = true := hd2
      show ((decide (c0 = some letter) && (decide (c1 = some letter) && (decide (c2 = some letter) && true))) || ((decide (c3 = some letter) && (decide (c4 = some letter) && (decide (c5 = some letter) && true))) || ((decide (c6 = some letter) && (decide (c7 = some letter) && (decide (c8 = some letter) && true))) || ((decide (c0 = some letter) && (decide (c3 = some letter) && (decide (c6 = some letter) && true))) || ((decide (c1 = some letter) && (decide (c4 = some letter) && (decide (c7 = some letter) && true))) || ((decide (c2 = some letter) && (decide (c5 = some letter) && (decide (c8 = some letter) && true))) || ((decide (c0 = some letter) && (decide (c4 = some letter) && (decide (c8 = some letter) && true))) || ((decide (c2 = some letter) && (decide (c4 = some letter) && (decide (c6 = some letter) && true))) || false)))))))) = true
      exact orr (orr (orr (orr (orr (orr (orr (orl (hc))))))))
  · -- square 5
    rcases hw with (h1 | h2) | ⟨-, hd1 | hd2⟩
    · have hc : (decide (c3 = some letter) && (decide (c4 = some letter) && (decide (c5 = some letter) && true))) = true := h1
      show ((decide (c0 = some letter) && (decide (c1 = some letter) && (decide (c2 = some letter) && true))) || ((decide (c3 = some letter) && (decide (c4 = some letter) && (decide (c5 = some letter) && true))) || ((decide (c6 = some letter) && (decide (c7 = some letter) && (decide (c8 = some letter) && true))) || ((decide (c0 = some letter) && (decide (c3 = some letter) && (decide (c6 = some letter) && true))) || ((decide (c1 = some letter) && (decide (c4 = some letter) && (decide (c7 = some letter) && true))) || ((decide (c2 = some letter) && (decide (c5 = some letter) && (decide (c8 = some letter) && true))) || ((decide (c0 = some letter) && (decide (c4 = some letter) && (decide (c8 = some letter) && true))) || ((decide (c2 = some letter) && (decide (c4 = some letter) && (decide (c6 = some letter) && true))) || false)))))))) = true
      exact orr (orl (hc))
    · have hc : (decide (c2 = some letter) && (decide (c5 = some letter) && (decide (c8 = some letter) && true))) = true := h2
      show ((decide (c0 = some letter) && (decide (c1 = some letter) && (decide (c2 = some letter) && true))) || ((decide (c3 = some letter) && (decide (c4 = some letter) && (decide (c5 = some letter) && true))) || ((decide (c6 = some letter) && (decide (c7 = some letter) && (decide (c8 = some letter) && true))) || ((decide (c0 = some letter) && (decide (c3 = some letter) && (decide (c6 = some letter) && true))) || ((decide (c1 = some letter) && (decide (c4 = some letter) && (decide (c7 = some letter) && true))) || ((decide (c2 = some letter) && (decide (c5 = some letter) && (decide (c8 = some letter) && true))) || ((decide (c0 = some letter) && (decide (c4 = some letter) && (decide (c8 = some letter) && true))) || ((decide (c2 = some letter) && (decide (c4 = some letter) && (decide (c6 = some letter) && true))) || false)))))))) = true
      exact orr (orr (orr (orr (orr (orl (hc))))))
    · have hc : (decide (c0 = some letter) && (decide (c4 = some letter) && (decide (c8 = some letter) && true))) = true := hd1
      show ((decide (c0 = some letter) && (decide (c1 = some letter) && (decide (c2 = some letter) && true))) || ((decide (c3 = some letter) && (decide (c4 = some letter) && (decide (c5 = some letter) && true))) || ((decide (c6 = some letter) && (decide (c7 = some letter) && (decide (c8 = some letter) && true))) || ((decide (c0 = some letter) && (decide (c3 = some letter) && (decide (c6 = some letter) && true))) || ((decide (c1 = some letter) && (decide (c4 = some letter) && (decide (c7 = some letter) && true))) || ((decide (c2 = some letter) && (decide (c5 = some letter) && (decide (c8 = some letter) && true))) || ((decide (c0 = some letter) && (decide (c4 = some letter) && (decide (c8 = some letter) && true))) || ((decide (c2 = some letter) && (decide (c4 = some letter) && (decide (c6 = some letter) && true))) || false)))))))) = true
      exact orr (orr (orr (orr (orr (orr (orl (hc)))))))
    · have hc : (decide (c2 = some letter) && (decide (c4 = some letter) && (decide (c6 = some letter) && true))) = true := hd2
      show ((decide (c0 = some letter) && (decide (c1 = some letter) && (decide (c2 = some letter) && true))) || ((decide (c3 = some letter) && (decide (c4 = some letter) && (decide (c5 = some letter) && true))) || ((decide (c6 = some letter) && (decide (c7 = some letter) && (decide (c8 = some letter) && true))) || ((decide (c0 = some letter) && (decide (c3 = some letter) && (decide (c6 = some letter) && true))) || ((decide (c1 = some letter) && (decide (c4 = some letter) && (decide (c7 = some letter) && true))) || ((decide (c2 = some letter) && (decide (c5 = some letter) && (decide (c8 = some letter) && true))) || ((decide (c0 = some letter) && (decide (c4 = some letter) && (decide (c8 = some letter) && true))) || ((decide (c2 = some letter) && (decide (c4 = some letter) && (decide (c6 = some letter) && true))) || false)))))))) = true
      exact orr (orr (orr (orr (orr (orr (orr (orl (hc))))))))
  · -- square 6
    rcases hw with (h1 | h2) | ⟨-, hd1 | hd2⟩
    · have hc : (decide (c6 = some letter) && (decide (c7 = some letter) && (decide (c8 = some letter) && true))) = true := h1
      show ((decide (c0 = some letter) && (decide (c1 = some letter) && (decide (c2 = some letter) && true))) || ((decide (c3 = some letter) && (decide (c4 = some letter) && (decide (c5 = some letter) && true))) || ((decide (c6 = some letter) && (decide (c7 = some letter) && (decide (c8 = some letter) && true))) || ((decide (c0 = some letter) && (decide (c3 = some letter) && (decide (c6 = some letter) && true))) || ((decide (c1 = some letter) && (decide (c4 = some letter) && (decide (c7 = some letter) && true))) || ((decide (c2 = some letter) && (decide (c5 = some letter) && (decide (c8 = some letter) && true))) || ((decide (c0 = some letter) && (decide (c4 = some letter) && (decide (c8 = some letter) && true))) || ((decide (c2 = some letter) && (decide (c4 = some letter) && (decide (c6 = some letter) && true))) || false)))))))) = true
      exact orr (orr (orl (hc)))
    · have hc : (decide (c0 = some letter) && (decide (c3 = some letter) && (decide (c6 = some letter) && true))) = true := h2
      show ((decide (c0 = some letter) && (decide (c1 = some letter) && (decide (c2 = some letter) && true))) || ((decide (c3 = some letter) && (decide (c4 = some letter) && (decide (c5 = some letter) && true))) || ((decide (c6 = some letter) && (decide (c7 = some letter) && (decide (c8 = some letter) && true))) || ((decide (c0 = some letter) && (decide (c3 = some letter) && (decide (c6 = some letter) && true))) || ((decide (c1 = some letter) && (decide (c4 = some letter) && (decide (c7 = some letter) && true))) || ((decide (c2 = some letter) && (decide (c5 = some letter) && (decide (c8 = some letter) && true))) || ((decide (c0 = some letter) && (decide (c4 = some letter) && (decide (c8 = some letter) && true))) || ((decide (c2 = some letter) && (decide (c4 = some letter) && (decide (c6 = some letter) && true))) || false)))))))) = true
      exact orr (orr (orr (orl (hc))))
    · have hc : (decide (c0 = some letter) && (decide (c4 = some letter) && (decide (c8 = some letter) && true))) = true := hd1
      show ((decide (c0 = some letter) && (decide (c1 = some letter) && (decide (c2 = some letter) && true))) || ((decide (c3 = some letter) && (decide (c4 = some letter) && (decide (c5 = some letter) && true))) || ((decide (c6 = some letter) && (decide (c7 = some letter) && (decide (c8 = some letter) && true))) || ((decide (c0 = some letter) && (decide (c3 = some letter) && (decide (c6 = some letter) && true))) || ((decide (c1 = some letter) && (decide (c4 = some letter) && (decide (c7 = some letter) && true))) || ((decide (c2 = some letter) && (decide (c5 = some letter) && (decide (c8 = some letter) && true))) || ((decide (c0 = some letter) && (decide (c4 = some letter) && (decide (c8 = some letter) && true))) || ((decide (c2 = some letter) && (decide (c4 = some letter) && (decide (c6 = some letter) && true))) || false)))))))) = true
      exact orr (orr (orr (orr (orr (orr (orl (hc)))))))
    · have hc : (decide (c2 = some letter) && (decide (c4 = some letter) && (decide (c6 = some letter) && true))) = true := hd2
      show ((decide (c0 = some letter) && (decide (c1 = some letter) && (decide (c2 = some letter) && true))) || ((decide (c3 = some letter) && (decide (c4 = some letter) && (decide (c5 = some letter) && true))) || ((decide (c6 = some letter) && (decide (c7 = some letter) && (decide (c8 = some letter) && true))) || ((decide (c0 = some letter) && (decide (c3 = some letter) && (decide (c6 = some letter) && true))) || ((decide (c1 = some letter) && (decide (c4 = some letter) && (decide (c7 = some letter) && true))) || ((decide (c2 = some letter) && (decide (c5 = some letter) && (decide (c8 = some letter) && true))) || ((decide (c0 = some letter) && (decide (c4 = some letter) && (decide (c8 = some letter) && true))) || ((decide (c2 = some letter) && (decide (c4 = some letter) && (decide (c6 = some letter) && true))) || false)))))))) = true
      exact orr (orr (orr (orr (orr (orr (orr (orl (hc))))))))
  · -- square 7
    rcases hw with (h1 | h2) | ⟨-, hd1 | hd2⟩
    · have hc : (decide (c6 = some letter) && (decide (c7 = some letter) && (decide (c8 = some letter) && true))) = true := h1
      show ((decide (c0 = some letter) && (decide (c1 = some letter) && (decide (c2 = some letter) && true))) || ((decide (c3 = some letter) && (decide (c4 = some letter) && (decide (c5 = some letter) && true))) || ((decide (c6 = some letter) && (decide (c7 = some letter) && (decide (c8 = some letter) && true))) || ((decide (c0 = some letter) && (decide (c3 = some letter) && (decide (c6 = some letter) && true))) || ((decide (c1 = some letter) && (decide (c4 = some letter) && (decide (c7 = some letter) && true))) || ((decide (c2 = some letter) && (decide (c5 = some letter) && (decide (c8 = some letter) && true))) || ((decide (c0 = some letter) && (decide (c4 = some letter) && (decide (c8 = some letter) && true))) || ((decide (c2 = some letter) && (decide (c4 = some letter) && (decide (c6 = some letter) && true))) || false)))))))) = true
      exact orr (orr (orl (hc)))
    · have hc : (decide (c1 = some letter) && (decide (c4 = some letter) && (decide (c7 = some letter) && true))) = true := h2
      show ((decide (c0 = some letter) && (decide (c1 = some letter) && (decide (c2 = some letter) && true))) || ((decide (c3 = some letter) && (decide (c4 = some letter) && (decide (c5 = some letter) && true))) || ((decide (c6 = some letter) && (decide (c7 = some letter) && (decide (c8 = some letter) && true))) || ((decide (c0 = some letter) && (decide (c3 = some letter) && (decide (c6 = some letter) && true))) || ((decide (c1 = some letter) && (decide (c4 = some letter) && (decide (c7 = some letter) && true))) || ((decide (c2 = some letter) && (decide (c5 = some letter) && (decide (c8 = some letter) && true))) || ((decide (c0 = some letter) && (decide (c4 = some letter) && (decide (c8 = some letter) && true))) || ((decide (c2 = some letter) && (decide (c4 = some letter) && (decide (c6 = some letter) && true))) || false)))))))) = true
      exact orr (orr (orr (orr (orl (hc)))))
    · have hc : (decide (c0 = some letter) && (decide (c4 = some letter) && (decide (c8 = some letter) && true))) = true := hd1
      show ((decide (c0 = some letter) && (decide (c1 = some letter) && (decide (c2 = some letter) && true))) || ((decide (c3 = some letter) && (decide (c4 = some letter) && (decide (c5 = some letter) && true))) || ((decide (c6 = some letter) && (decide (c7 = some letter) && (decide (c8 = some letter) && true))) || ((decide (c0 = some letter) && (decide (c3 = some letter) && (decide (c6 = some letter) && true))) || ((decide (c1 = some letter) && (decide (c4 = some letter) && (decide (c7 = some letter) && true))) || ((decide (c2 = some letter) && (decide (c5 = some letter) && (decide (c8 = some letter) && true))) || ((decide (c0 = some letter) && (decide (c4 = some letter) && (decide (c8 = some letter) && true))) || ((decide (c2 = some letter) && (decide (c4 = some letter) && (decide (c6 = some letter) && true))) || false)))))))) = true
      exact orr (orr (orr (orr (orr (orr (orl (hc)))))))
    · have hc : (decide (c2 = some letter) && (decide (c4 = some letter) && (decide (c6 = some letter) && true))) = true := hd2
      show ((decide (c0 = some letter) && (decide (c1 = some letter) && (decide (c2 = some letter) && true))) || ((decide (c3 = some letter) && (decide (c4 = some letter) && (decide (c5 = some letter) && true))) || ((decide (c6 = some letter) && (decide (c7 = some letter) && (decide (c8 = some letter) && true))) || ((decide (c0 = some letter) && (decide (c3 = some letter) && (decide (c6 = some letter) && true))) || ((decide (c1 = some letter) && (decide (c4 = some letter) && (decide (c7 = some letter) && true))) || ((decide (c2 = some letter) && (decide (c5 = some letter) && (decide (c8 = some letter) && true))) || ((decide (c0 = some letter) && (decide (c4 = some letter) && (decide (c8 = some letter) && true))) || ((decide (c2 = some letter) && (decide (c4 = some letter) && (decide (c6 = some letter) && true))) || false)))))))) = true
      exact orr (orr (orr (orr (orr (orr (orr (orl (hc))))))))
  · -- square 8
    rcases hw with (h1 | h2) | ⟨-, hd1 | hd2⟩
    · have hc : (decide (c6 = some letter) && (decide (c7 = some letter) && (decide (c8 = some letter) && true))) = true := h1
      show ((decide (c0 = some letter) && (decide (c1 = some letter) && (decide (c2 = some letter) && true))) || ((decide (c3 = some letter) && (decide (c4 = some letter) && (decide (c5 = some letter) && true))) || ((decide (c6 = some letter) && (decide (c7 = some letter) && (decide (c8 = some letter) && true))) || ((decide (c0 = some letter) && (decide (c3 = some letter) && (decide (c6 = some letter) && true))) || ((decide (c1 = some letter) && (decide (c4 = some letter) && (decide (c7 = some letter) && true))) || ((decide (c2 = some letter) && (decide (c5 = some letter) && (decide (c8 = some letter) && true))) || ((decide (c0 = some letter) && (decide (c4 = some letter) && (decide (c8 = some letter) && true))) || ((decide (c2 = some letter) && (decide (c4 = some letter) && (decide (c6 = some letter) && true))) || false)))))))) = true
      exact orr (orr (orl (hc)))
    · have hc : (decide (c2 = some letter) && (decide (c5 = some letter) && (decide (c8 = some letter) && true))) = true := h2
      show ((decide (c0 = some letter) && (decide (c1 = some letter) && (decide (c2 = some letter) && true))) || ((decide (c3 = some letter) && (decide (c4 = some letter) && (decide (c5 = some letter) && true))) || ((decide (c6 = some letter) && (decide (c7 = some letter) && (decide (c8 = some letter) && true))) || ((decide (c0 = some letter) && (decide (c3 = some letter) && (decide (c6 = some letter) && true))) || ((decide (c1 = some letter) && (decide (c4 = some letter) && (decide (c7 = some letter) && true))) || ((decide (c2 = some letter) && (decide (c5 = some letter) && (decide (c8 = some letter) && true))) || ((decide (c0 = some letter) && (decide (c4 = some letter) && (decide (c8 = some letter) && true))) || ((decide (c2 = some letter) && (decide (c4 = some letter) && (decide (c6 = some letter) && true))) || false)))))))) = true
      exact orr (orr (orr (orr (orr (orl (hc))))))
    · have hc : (decide (c0 = some letter) && (decide (c4 = some letter) && (decide (c8 = some letter) && true))) = true := hd1
      show ((decide (c0 = some letter) && (decide (c1 = some letter) && (decide (c2 = some letter) && true))) || ((decide (c3 = some letter) && (decide (c4 = some letter) && (decide (c5 = some letter) && true))) || ((decide (c6 = some letter) && (decide (c7 = some letter) && (decide (c8 = some letter) && true))) || ((decide (c0 = some letter) && (decide (c3 = some letter) && (decide (c6 = some letter) && true))) || ((decide (c1 = some letter) && (decide (c4 = some letter) && (decide (c7 = some letter) && true))) || ((decide (c2 = some letter) && (decide (c5 = some letter) && (decide (c8 = some letter) && true))) || ((decide (c0 = some letter) && (decide (c4 = some letter) && (decide (c8 = some letter) && true))) || ((decide (c2 = some letter) && (decide (c4 = some letter) && (decide (c6 = some letter) && true))) || false)))))))) = true
      exact orr (orr (orr (orr (orr (orr (orl (hc)))))))
    · have hc : (decide (c2 = some letter) && (decide (c4 = some letter) && (decide (c6 = some letter) && true))) = true := hd2
      show ((decide (c0 = some letter) && (decide (c1 = some letter) && (decide (c2 = some letter) && true))) || ((decide (c3 = some letter) && (decide (c4 = some letter) && (decide (c5 = some letter) && true))) || ((decide (c6 = some letter) && (decide (c7 = some letter) && (decide (c8 = some letter) && true))) || ((decide (c0 = some letter) && (decide (c3 = some letter) && (decide (c6 = some letter) && true))) || ((decide (c1 = some letter) && (decide (c4 = some letter) && (decide (c7 = some letter) && true))) || ((decide (c2 = some letter) && (decide (c5 = some letter) && (decide (c8 = some letter) && true))) || ((decide (c0 = some letter) && (decide (c4 = some letter) && (decide (c8 = some letter) && true))) || ((decide (c2 = some letter) && (decide (c4 = some letter) && (decide (c6 = some letter) && true))) || false)))))))) = true
      exact orr (orr (orr (orr (orr (orr (orr (orl (hc))))))))

theorem check_winner_complete {b : List Cell} {square : Nat} {letter : Letter}
    (hlen : b.length = 9) (hsq : square < 9)
    (hno : ∀ m, lineWin b m = false)
    (hcw : check_winner (b.set square (some letter)) square letter = false) :
    ∀ m, lineWin (b.set square (some letter)) m = false := by
  obtain ⟨c0, c1, c2, c3, c4, c5, c6, c7, c8, rfl⟩ := board9_cases hlen
  rw [check_winner_char] at hcw
  simp only [diagsAll] at hcw
  rcases Bool.or_eq_false_iff.mp hcw with ⟨h12, hdg⟩
  rcases Bool.or_eq_false_iff.mp h12 with ⟨hrow, hcol⟩
  have hno2all := hno
  rcases show square = 0 ∨ square = 1 ∨ square = 2 ∨ square = 3 ∨ square = 4 ∨
      square = 5 ∨ square = 6 ∨ square = 7 ∨ square = 8 from by omega with
    rfl | rfl | rfl | rfl | rfl | rfl | rfl | rfl | rfl
  · -- square 0
    have hb : [c0, c1, c2, c3, c4, c5, c6, c7, c8].set 0 (some letter) = [some letter, c1, c2, c3, c4, c5, c6, c7, c8] := rfl
    rw [hb] at hrow hcol hdg ⊢
    intro m
    have hrow2 : (decide (some letter = some letter) && (decide (c1 = some letter) && (decide (c2 = some letter) && true))) = false := hrow
    have hcol2 : (decide (some letter = some letter) && (decide (c3 = some letter) && (decide (c6 = some letter) && true))) = false := hcol
    have hd1 : (decide (some letter = some letter) && (decide (c4 = some letter) && (decide (c8 = some letter) && true))) = false := diag_first hdg (by decide)
    have hd2 : (decide (c2 = some letter) && (decide (c4 = some letter) && (decide (c6 = some letter) && true))) = false := diag_second hdg (by decide)
    have hno2 : ((decide (c0 = some m) && (decide (c1 = some m) && (decide (c2 = some m) && true))) || ((decide (c3 = some m) && (decide (c4 = some m) && (decide (c5 = some m) && true))) || ((decide (c6 = some m) && (decide (c7 = some m) && (decide (c8 = some m) && true))) || ((decide (c0 = some m) && (decide (c3 = some m) && (decide (c6 = some m) && true))) || ((decide (c1 = some m) && (decide (c4 = some m) && (decide (c7 = some m) && true))) || ((decide (c2 = some m) && (decide (c5 = some m) && (decide (c8 = some m) && true))) || ((decide (c0 = some m) && (decide (c4 = some m) && (decide (c8 = some m) && true))) || ((decide (c2 = some m) && (decide (c4 = some m) && (decide (c6 = some m) && true))) || false)))))))) = false := hno m
    obtain ⟨hn0, hrest0⟩ := orfmp hno2
    obtain ⟨hn1, hrest1⟩ := orfmp hrest0
    obtain ⟨hn2, hrest2⟩ := orfmp hrest1
    obtain ⟨hn3, hrest3⟩ := orfmp hrest2
    obtain ⟨hn4, hrest4⟩ := orfmp hrest3
    obtain ⟨hn5, hrest5⟩ := orfmp hrest4
    obtain ⟨hn6, hrest6⟩ := orfmp hrest5
    obtain ⟨hn7, -⟩ := orfmp hrest6
    show ((decide (some letter = some m) && (decide (c1 = some m) && (decide (c2 = some m) && true))) || ((decide (c3 = some m) && (decide (c4 = some m) && (decide (c5 = some m) && true))) || ((decide (c6 = some m) && (decide (c7 = some m) && (decide (c8 = some m) && true))) || ((decide (some letter = some m) && (decide (c3 = some m) && (decide (c6 = some m) && true))) || ((decide (c1 = some m) && (decide (c4 = some m) && (decide (c7 = some m) && true))) || ((decide (c2 = some m) && (decide (c5 = some m) && (decide (c8 = some m) && true))) || ((decide (some letter = some m) && (decide (c4 = some m) && (decide (c8 = some m) && true))) || ((decide (c2 = some m) && (decide (c4 = some m) && (decide (c6 = some m) && true))) || false)))))))) = false
    by_cases hm : letter = m
    · subst hm
      exact orf hrow2 (orf hn1 (orf hn2 (orf hcol2 (orf hn4 (orf hn5 (orf hd1 (orf hn7 (rfl))))))))
    · have hx : decide ((some letter : Cell) = some m) = false :=
        decide_eq_false (fun hq => hm (Option.some.inj hq))
      exact orf (andf1 (hx)) (orf (hn1) (orf (hn2) (orf (andf1 (hx)) (orf (hn4) (orf (hn5) (orf (andf1 (hx)) (orf (hn7) (rfl))))))))
  · -- square 1
    have hb : [c0, c1, c2, c3, c4, c5, c6, c7, c8].set 1 (some letter) = [c0, some letter, c2, c3, c4, c5, c6, c7, c8] := rfl
    rw [hb] at hrow hcol hdg ⊢
    intro m
    have hrow2 : (decide (c0 = some letter) && (decide (some letter = some letter) && (decide (c2 = some letter) && true))) = false := hrow
    have hcol2 : (decide (some letter = some letter) && (decide (c4 = some letter) && (decide (c7 = some letter) && true))) = false := hcol
    have hno2 : ((decide (c0 = some m) && (decide (c1 = some m) && (decide (c2 = some m) && true))) || ((decide (c3 = some m) && (decide (c4 = some m) && (decide (c5 = some m) && true))) || ((decide (c6 = some m) && (decide (c7 = some m) && (decide (c8 = some m) && true))) || ((decide (c0 = some m) && (decide (c3 = some m) && (decide (c6 = some m) && true))) || ((decide (c1 = some m) && (decide (c4 = some m) && (decide (c7 = some m) && true))) || ((decide (c2 = some m) && (decide (c5 = some m) && (decide (c8 = some m) && true))) || ((decide (c0 = some m) && (decide (c4 = some m) && (decide (c8 = some m) && true))) || ((decide (c2 = some m) && (decide (c4 = some m) && (decide (c6 = some m) && true))) || false)))))))) = false := hno m
    obtain ⟨hn0, hrest0⟩ := orfmp hno2
    obtain ⟨hn1, hrest1⟩ := orfmp hrest0
    obtain ⟨hn2, hrest2⟩ := orfmp hrest1
    obtain ⟨hn3, hrest3⟩ := orfmp hrest2
    obtain ⟨hn4, hrest4⟩ := orfmp hrest3
    obtain ⟨hn5, hrest5⟩ := orfmp hrest4
    obtain ⟨hn6, hrest6⟩ := orfmp hrest5
    obtain ⟨hn7, -⟩ := orfmp hrest6
    show ((decide (c0 = some m) && (decide (some letter = some m) && (decide (c2 = some m) && true))) || ((decide (c3 = some m) && (decide (c4 = some m) && (decide (c5 = some m) && true))) || ((decide (c6 = some m) && (decide (c7 = some m) && (decide (c8 = some m) && true))) || ((decide (c0 = some m) && (decide (c3 = some m) && (decide (c6 = some m) && true))) || ((decide (some letter = some m) && (decide (c4 = some m) && (decide (c7 = some m) && true))) || ((decide (c2 = some m) && (decide (c5 = some m) && (decide (c8 = some m) && true))) || ((decide (c0 = some m) && (decide (c4 = some m) && (decide (c8 = some m) && true))) || ((decide (c2 = some m) && (decide (c4 = some m) && (decide (c6 = some m) && true))) || false)))))))) = false
    by_cases hm : letter = m
    · subst hm
      exact orf hrow2 (orf hn1 (orf hn2 (orf hn3 (orf hcol2 (orf hn5 (orf hn6 (orf hn7 (rfl))))))))
    · have hx : decide ((some letter : Cell) = some m) = false :=
        decide_eq_false (fun hq => hm (Option.some.inj hq))
      exact orf (andf2 (andf1 (hx))) (orf (hn1) (orf (hn2) (orf (hn3) (orf (andf1 (hx)) (orf (hn5) (orf (hn6) (orf (hn7) (rfl))))))))
  · -- square 2
    have hb : [c0, c1, c2, c3, c4, c5, c6, c7, c8].set 2 (some letter) = [c0, c1, some letter, c3, c4, c5, c6, c7, c8] := rfl
    rw [hb] at hrow hcol hdg ⊢
    intro m
    have hrow2 : (decide (c0 = some letter) && (decide (c1 = some letter) && (decide (some letter = some letter) && true))) = false := hrow
    have hcol2 : (decide (some letter = some letter) && (decide (c5 = some letter) && (decide (c8 = some letter) && true))) = false := hcol
    have hd1 : (decide (c0 = some letter) && (decide (c4 = some letter) && (decide (c8 = some letter) && true))) = false := diag_first hdg (by decide)
    have hd2 : (decide (some letter = some letter) && (decide (c4 = some letter) && (decide (c6 = some letter) && true))) = false := diag_second hdg (by decide)
    have hno2 : ((decide (c0 = some m) && (decide (c1 = some m) && (decide (c2 = some m) && true))) || ((decide (c3 = some m) && (decide (c4 = some m) && (decide (c5 = some m) && true))) || ((decide (c6 = some m) && (decide (c7 = some m) && (decide (c8 = some m) && true))) || ((decide (c0 = some m) && (decide (c3 = some m) && (decide (c6 = some m) && true))) || ((decide (c1 = some m) && (decide (c4 = some m) && (decide (c7 = some m) && true))) || ((decide (c2 = some m) && (decide (c5 = some m) && (decide (c8 = some m) && true))) || ((decide (c0 = some m) && (decide (c4 = some m) && (decide (c8 = some m) && true))) || ((decide (c2 = some m) && (decide (c4 = some m) && (decide (c6 = some m) && true))) || false)))))))) = false := hno m
    obtain ⟨hn0, hrest0⟩ := orfmp hno2
    obtain ⟨hn1, hrest1⟩ := orfmp hrest0
    obtain ⟨hn2, hrest2⟩ := orfmp hrest1
    obtain ⟨hn3, hrest3⟩ := orfmp hrest2
    obtain ⟨hn4, hrest4⟩ := orfmp hrest3
    obtain ⟨hn5, hrest5⟩ := orfmp hrest4
    obtain ⟨hn6, hrest6⟩ := orfmp hrest5
    obtain ⟨hn7, -⟩ := orfmp hrest6
    show ((decide (c0 = some m) && (decide (c1 = some m) && (decide (some letter = some m) && true))) || ((decide (c3 = some m) && (decide (c4 = some m) && (decide (c5 = some m) && true))) || ((decide (c6 = some m) && (decide (c7 = some m) && (decide (c8 = some m) && true))) || ((decide (c0 = some m) && (decide (c3 = some m) && (decide (c6 = some m) && true))) || ((decide (c1 = some m) && (decide (c4 = some m) && (decide (c7 = some m) && true))) || ((decide (some letter = some m) && (decide (c5 = some m) && (decide (c8 = some m) && true))) || ((decide (c0 = some m) && (decide (c4 = some m) && (decide (c8 = some m) && true))) || ((decide (some letter = some m) && (decide (c4 = some m) && (decide (c6 = some m) && true))) || false)))))))) = false
    by_cases hm : letter = m
    · subst hm
      exact orf hrow2 (orf hn1 (orf hn2 (orf hn3 (orf hn4 (orf hcol2 (orf hn6 (orf hd2 (rfl))))))))
    · have hx : decide ((some letter : Cell) = some m) = false :=
        decide_eq_false (fun hq => hm (Option.some.inj hq))
      exact orf (andf2 (andf2 (andf1 (hx)))) (orf (hn1) (orf (hn2) (orf (hn3) (orf (hn4) (orf (andf1 (hx)) (orf (hn6) (orf (andf1 (hx)) (rfl))))))))
  · -- square 3
    have hb : [c0, c1, c2, c3, c4, c5, c6, c7, c8].set 3 (some letter) = [c0, c1, c2, some letter, c4, c5, c6, c7, c8] := rfl
    rw [hb] at hrow hcol hdg ⊢
    intro m
    have hrow2 : (decide (some letter = some letter) && (decide (c4 = some letter) && (decide (c5 = some letter) && true))) = false := hrow
    have hcol2 : (decide (c0 = some letter) && (decide (some letter = some letter) && (decide (c6 = some letter) && true))) = false := hcol
    have hno2 : ((decide (c0 = some m) && (decide (c1 = some m) && (decide (c2 = some m) && true))) || ((decide (c3 = some m) && (decide (c4 = some m) && (decide (c5 = some m) && true))) || ((decide (c6 = some m) && (decide (c7 = some m) && (decide (c8 = some m) && true))) || ((decide (c0 = some m) && (decide (c3 = some m) && (decide (c6 = some m) && true))) || ((decide (c1 = some m) && (decide (c4 = some m) && (decide (c7 = some m) && true))) || ((decide (c2 = some m) && (decide (c5 = some m) && (decide (c8 = some m) && true))) || ((decide (c0 = some m) && (decide (c4 = some m) && (decide (c8 = some m) && true))) || ((decide (c2 = some m) && (decide (c4 = some m) && (decide (c6 = some m) && true))) || false)))))))) = false := hno m
    obtain ⟨hn0, hrest0⟩ := orfmp hno2
    obtain ⟨hn1, hrest1⟩ := orfmp hrest0
    obtain ⟨hn2, hrest2⟩ := orfmp hrest1
    obtain ⟨hn3, hrest3⟩ := orfmp hrest2
    obtain ⟨hn4, hrest4⟩ := orfmp hrest3
    obtain ⟨hn5, hrest5⟩ := orfmp hrest4
    obtain ⟨hn6, hrest6⟩ := orfmp hrest5
    obtain ⟨hn7, -⟩ := orfmp hrest6
    show ((decide (c0 = some m) && (decide (c1 = some m) && (decide (c2 = some m) && true))) || ((decide (some letter = some m) && (decide (c4 = some m) && (decide (c5 = some m) && true))) || ((decide (c6 = some m) && (decide (c7 = some m) && (decide (c8 = some m) && true))) || ((decide (c0 = some m) && (decide (some letter = some m) && (decide (c6 = some m) && true))) || ((decide (c1 = some m) && (decide (c4 = some m) && (decide (c7 = some m) && true))) || ((decide (c2 = some m) && (decide (c5 = some m) && (decide (c8 = some m) && true))) || ((decide (c0 = some m) && (decide (c4 = some m) && (decide (c8 = some m) && true))) || ((decide (c2 = some m) && (decide (c4 = some m) && (decide (c6 = some m) && true))) || false)))))))) = false
    by_cases hm : letter = m
    · subst hm
      exact orf hn0 (orf hrow2 (orf hn2 (orf hcol2 (orf hn4 (orf hn5 (orf hn6 (orf hn7 (rfl))))))))
    · have hx : decide ((some letter : Cell) = some m) = false :=
        decide_eq_false (fun hq => hm (Option.some.inj hq))
      exact orf (hn0) (orf (andf1 (hx)) (orf (hn2) (orf (andf2 (andf1 (hx))) (orf (hn4) (orf (hn5) (orf (hn6) (orf (hn7) (rfl))))))))
  · -- square 4
    have hb : [c0, c1, c2, c3, c4, c5, c6, c7, c8].set 4 (some letter) = [c0, c1, c2, c3, some letter, c5, c6, c7, c8] := rfl
    rw [hb] at hrow hcol hdg ⊢
    intro m
    have hrow2 : (decide (c3 = some letter) && (decide (some letter = some letter) && (decide (c5 = some letter) && true))) = false := hrow
    have hcol2 : (decide (c1 = some letter) && (decide (some letter = some letter) && (decide (c7 = some letter) && true))) = false := hcol
    have hd1 : (decide (c0 = some letter) && (decide (some letter = some letter) && (decide (c8 = some letter) && true))) = false := diag_first hdg (by decide)
    have hd2 : (decide (c2 = some letter) && (decide (some letter = some letter) && (decide (c6 = some letter) && true))) = false := diag_second hdg (by decide)
    have hno2 : ((decide (c0 = some m) && (decide (c1 = some m) && (decide (c2 = some m) && true))) || ((decide (c3 = some m) && (decide (c4 = some m) && (decide (c5 = some m) && true))) || ((decide (c6 = some m) && (decide (c7 = some m) && (decide (c8 = some m) && true))) || ((decide (c0 = some m) && (decide (c3 = some m) && (decide (c6 = some m) && true))) || ((decide (c1 = some m) && (decide (c4 = some m) && (decide (c7 = some m) && true))) || ((decide (c2 = some m) && (decide (c5 = some m) && (decide (c8 = some m) && true))) || ((decide (c0 = some m) && (decide (c4 = some m) && (decide (c8 = some m) && true))) || ((decide (c2 = some m) && (decide (c4 = some m) && (decide (c6 = some m) && true))) || false)))))))) = false := hno m
    obtain ⟨hn0, hrest0⟩ := orfmp hno2
    obtain ⟨hn1, hrest1⟩ := orfmp hrest0
    obtain ⟨hn2, hrest2⟩ := orfmp hrest1
    obtain ⟨hn3, hrest3⟩ := orfmp hrest2
    obtain ⟨hn4, hrest4⟩ := orfmp hrest3
    obtain ⟨hn5, hrest5⟩ := orfmp hrest4
    obtain ⟨hn6, hrest6⟩ := orfmp hrest5
    obtain ⟨hn7, -⟩ := orfmp hrest6
    show ((decide (c0 = some m) && (decide (c1 = some m) && (decide (c2 = some m) && true))) || ((decide (c3 = some m) && (decide (some letter = some m) && (decide (c5 = some m) && true))) || ((decide (c6 = some m) && (decide (c7 = some m) && (decide (c8 = some m) && true))) || ((decide (c0 = some m) && (decide (c3 = some m) && (decide (c6 = some m) && true))) || ((decide (c1 = some m) && (decide (some letter = some m) && (decide (c7 = some m) && true))) || ((decide (c2 = some m) && (decide (c5 = some m) && (decide (c8 = some m) && true))) || ((decide (c0 = some m) && (decide (some letter = some m) && (decide (c8 = some m) && true))) || ((decide (c2 = some m) && (decide (some letter = some m) && (decide (c6 = some m) && true))) || false)))))))) = false
    by_cases hm : letter = m
    · subst hm
      exact orf hn0 (orf hrow2 (orf hn2 (orf hn3 (orf hcol2 (orf hn5 (orf hd1 (orf hd2 (rfl))))))))
    · have hx : decide ((some letter : Cell) = some m) = false :=
        decide_eq_false (fun hq => hm (Option.some.inj hq))
      exact orf (hn0) (orf (andf2 (andf1 (hx))) (orf (hn2) (orf (hn3) (orf (andf2 (andf1 (hx))) (orf (hn5) (orf (andf2 (andf1 (hx))) (orf (andf2 (andf1 (hx))) (rfl))))))))
  · -- square 5
    have hb : [c0, c1, c2, c3, c4, c5, c6, c7, c8].set 5 (some letter) = [c0, c1, c2, c3, c4, some letter, c6, c7, c8] := rfl
    rw [hb] at hrow hcol hdg ⊢
    intro m
    have hrow2 : (decide (c3 = some letter) && (decide (c4 = some letter) && (decide (some letter = some letter) && true))) = false := hrow
    have hcol2 : (decide (c2 = some letter) && (decide (some letter = some letter) && (decide (c8 = some letter) && true))) = false := hcol
    have hno2 : ((decide (c0 = some m) && (decide (c1 = some m) && (decide (c2 = some m) && true))) || ((decide (c3 = some m) && (decide (c4 = some m) && (decide (c5 = some m) && true))) || ((decide (c6 = some m) && (decide (c7 = some m) && (decide (c8 = some m) && true))) || ((decide (c0 = some m) && (decide (c3 = some m) && (decide (c6 = some m) && true))) || ((decide (c1 = some m) && (decide (c4 = some m) && (decide (c7 = some m) && true))) || ((decide (c2 = some m) && (decide (c5 = some m) && (decide (c8 = some m) && true))) || ((decide (c0 = some m) && (decide (c4 = some m) && (decide (c8 = some m) && true))) || ((decide (c2 = some m) && (decide (c4 = some m) && (decide (c6 = some m) && true))) || false)))))))) = false := hno m
    obtain ⟨hn0, hrest0⟩ := orfmp hno2
    obtain ⟨hn1, hrest1⟩ := orfmp hrest0
    obtain ⟨hn2, hrest2⟩ := orfmp hrest1
    obtain ⟨hn3, hrest3⟩ := orfmp hrest2
    obtain ⟨hn4, hrest4⟩ := orfmp hrest3
    obtain ⟨hn5, hrest5⟩ := orfmp hrest4
    obtain ⟨hn6, hrest6⟩ := orfmp hrest5
    obtain ⟨hn7, -⟩ := orfmp hrest6
    show ((decide (c0 = some m) && (decide (c1 = some m) && (decide (c2 = some m) && true))) || ((decide (c3 = some m) && (decide (c4 = some m) && (decide (some letter = some m) && true))) || ((decide (c6 = some m) && (decide (c7 = some m) && (decide (c8 = some m) && true))) || ((decide (c0 = some m) && (decide (c3 = some m) && (decide (c6 = some m) && true))) || ((decide (c1 = some m) && (decide (c4 = some m) && (decide (c7 = some m) && true))) || ((decide (c2 = some m) && (decide (some letter = some m) && (decide (c8 = some m) && true))) || ((decide (c0 = some m) && (decide (c4 = some m) && (decide (c8 = some m) && true))) || ((decide (c2 = some m) && (decide (c4 = some m) && (decide (c6 = some m) && true))) || false)))))))) = false
    by_cases hm : letter = m
    · subst hm
      exact orf hn0 (orf hrow2 (orf hn2 (orf hn3 (orf hn4 (orf hcol2 (orf hn6 (orf hn7 (rfl))))))))
    · have hx : decide ((some letter : Cell) = some m) = false :=
        decide_eq_false (fun hq => hm (Option.some.inj hq))
      exact orf (hn0) (orf (andf2 (andf2 (andf1 (hx)))) (orf (hn2) (orf (hn3) (orf (hn4) (orf (andf2 (andf1 (hx))) (orf (hn6) (orf (hn7) (rfl))))))))
  · -- square 6
    have hb : [c0, c1, c2, c3, c4, c5, c6, c7, c8].set 6 (some letter) = [c0, c1, c2, c3, c4, c5, some letter, c7, c8] := rfl
    rw [hb] at hrow hcol hdg ⊢
    intro m
    have hrow2 : (decide (some letter = some letter) && (decide (c7 = some letter) && (decide (c8 = some letter) && true))) = false := hrow
    have hcol2 : (decide (c0 = some letter) && (decide (c3 = some letter) && (decide (some letter = some letter) && true))) = false := hcol
    have hd1 : (decide (c0 = some letter) && (decide (c4 = some letter) && (decide (c8 = some letter) && true))) = false := diag_first hdg (by decide)
    have hd2 : (decide (c2 = some letter) && (decide (c4 = some letter) && (decide (some letter = some letter) && true))) = false := diag_second hdg (by decide)
    have hno2 : ((decide (c0 = some m) && (decide (c1 = some m) && (decide (c2 = some m) && true))) || ((decide (c3 = some m) && (decide (c4 = some m) && (decide (c5 = some m) && true))) || ((decide (c6 = some m) && (decide (c7 = some m) && (decide (c8 = some m) && true))) || ((decide (c0 = some m) && (decide (c3 = some m) && (decide (c6 = some m) && true))) || ((decide (c1 = some m) && (decide (c4 = some m) && (decide (c7 = some m) && true))) || ((decide (c2 = some m) && (decide (c5 = some m) && (decide (c8 = some m) && true))) || ((decide (c0 = some m) && (decide (c4 = some m) && (decide (c8 = some m) && true))) || ((decide (c2 = some m) && (decide (c4 = some m) && (decide (c6 = some m) && true))) || false)))))))) = false := hno m
    obtain ⟨hn0, hrest0⟩ := orfmp hno2
    obtain ⟨hn1, hrest1⟩ := orfmp hrest0
    obtain ⟨hn2, hrest2⟩ := orfmp hrest1
    obtain ⟨hn3, hrest3⟩ := orfmp hrest2
    obtain ⟨hn4, hrest4⟩ := orfmp hrest3
    obtain ⟨hn5, hrest5⟩ := orfmp hrest4
    obtain ⟨hn6, hrest6⟩ := orfmp hrest5
    obtain ⟨hn7, -⟩ := orfmp hrest6
    show ((decide (c0 = some m) && (decide (c1 = some m) && (decide (c2 = some m) && true))) || ((decide (c3 = some m) && (decide (c4 = some m) && (decide (c5 = some m) && true))) || ((decide (some letter = some m) && (decide (c7 = some m) && (decide (c8 = some m) && true))) || ((decide (c0 = some m) && (decide (c3 = some m) && (decide (some letter = some m) && true))) || ((decide (c1 = some m) && (decide (c4 = some m) && (decide (c7 = some m) && true))) || ((decide (c2 = some m) && (decide (c5 = some m) && (decide (c8 = some m) && true))) || ((decide (c0 = some m) && (decide (c4 = some m) && (decide (c8 = some m) && true))) || ((decide (c2 = some m) && (decide (c4 = some m) && (decide (some letter = some m) && true))) || false)))))))) = false
    by_cases hm : letter = m
    · subst hm
      exact orf hn0 (orf hn1 (orf hrow2 (orf hcol2 (orf hn4 (orf hn5 (orf hn6 (orf hd2 (rfl))))))))
    · have hx : decide ((some letter : Cell) = some m) = false :=
        decide_eq_false (fun hq => hm (Option.some.inj hq))
      exact orf (hn0) (orf (hn1) (orf (andf1 (hx)) (orf (andf2 (andf2 (andf1 (hx)))) (orf (hn4) (orf (hn5) (orf (hn6) (orf (andf2 (andf2 (andf1 (hx)))) (rfl))))))))
  · -- square 7
    have hb : [c0, c1, c2, c3, c4, c5, c6, c7, c8].set 7 (some letter) = [c0, c1, c2, c3, c4, c5, c6, some letter, c8] := rfl
    rw [hb] at hrow hcol hdg ⊢
    intro m
    have hrow2 : (decide (c6 = some letter) && (decide (some letter = some letter) && (decide (c8 = some letter) && true))) = false := hrow
    have hcol2 : (decide (c1 = some letter) && (decide (c4 = some letter) && (decide (some letter = some letter) && true))) = false := hcol
    have hno2 : ((decide (c0 = some m) && (decide (c1 = some m) && (decide (c2 = some m) && true))) || ((decide (c3 = some m) && (decide (c4 = some m) && (decide (c5 = some m) && true))) || ((decide (c6 = some m) && (decide (c7 = some m) && (decide (c8 = some m) && true))) || ((decide (c0 = some m) && (decide (c3 = some m) && (decide (c6 = some m) && true))) || ((decide (c1 = some m) && (decide (c4 = some m) && (decide (c7 = some m) && true))) || ((decide (c2 = some m) && (decide (c5 = some m) && (decide (c8 = some m) && true))) || ((decide (c0 = some m) && (decide (c4 = some m) && (decide (c8 = some m) && true))) || ((decide (c2 = some m) && (decide (c4 = some m) && (decide (c6 = some m) && true))) || false)))))))) = false := hno m
    obtain ⟨hn0, hrest0⟩ := orfmp hno2
    obtain ⟨hn1, hrest1⟩ := orfmp hrest0
    obtain ⟨hn2, hrest2⟩ := orfmp hrest1
    obtain ⟨hn3, hrest3⟩ := orfmp hrest2
    obtain ⟨hn4, hrest4⟩ := orfmp hrest3
    obtain ⟨hn5, hrest5⟩ := orfmp hrest4
    obtain ⟨hn6, hrest6⟩ := orfmp hrest5
    obtain ⟨hn7, -⟩ := orfmp hrest6
    show ((decide (c0 = some m) && (decide (c1 = some m) && (decide (c2 = some m) && true))) || ((decide (c3 = some m) && (decide (c4 = some m) && (decide (c5 = some m) && true))) || ((decide (c6 = some m) && (decide (some letter = some m) && (decide (c8 = some m) && true))) || ((decide (c0 = some m) && (decide (c3 = some m) && (decide (c6 = some m) && true))) || ((decide (c1 = some m) && (decide (c4 = some m) && (decide (some letter = some m) && true))) || ((decide (c2 = some m) && (decide (c5 = some m) && (decide (c8 = some m) && true))) || ((decide (c0 = some m) && (decide (c4 = some m) && (decide (c8 = some m) && true))) || ((decide (c2 = some m) && (decide (c4 = some m) && (decide (c6 = some m) && true))) || false)))))))) = false
    by_cases hm : letter = m
    · subst hm
      exact orf hn0 (orf hn1 (orf hrow2 (orf hn3 (orf hcol2 (orf hn5 (orf hn6 (orf hn7 (rfl))))))))
    · have hx : decide ((some letter : Cell) = some m) = false :=
        decide_eq_false (fun hq => hm (Option.some.inj hq))
      exact orf (hn0) (orf (hn1) (orf (andf2 (andf1 (hx))) (orf (hn3) (orf (andf2 (andf2 (andf1 (hx)))) (orf (hn5) (orf (hn6) (orf (hn7) (rfl))))))))
  · -- square 8
    have hb : [c0, c1, c2, c3, c4, c5, c6, c7, c8].set 8 (some letter) = [c0, c1, c2, c3, c4, c5, c6, c7, some letter] := rfl
    rw [hb] at hrow hcol hdg ⊢
    intro m
    have hrow2 : (decide (c6 = some letter) && (decide (c7 = some letter) && (decide (some letter = some letter) && true))) = false := hrow
    have hcol2 : (decide (c2 = some letter) && (decide (c5 = some letter) && (decide (some letter = some letter) && true))) = false := hcol
    have hd1 : (decide (c0 = some letter) && (decide (c4 = some letter) && (decide (some letter = some letter) && true))) = false := diag_first hdg (by decide)
    have hd2 : (decide (c2 = some letter) && (decide (c4 = some letter) && (decide (c6 = some letter) && true))) = false := diag_second hdg (by decide)
    have hno2 : ((decide (c0 = some m) && (decide (c1 = some m) && (decide (c2 = some m) && true))) || ((decide (c3 = some m) && (decide (c4 = some m) && (decide (c5 = some m) && true))) || ((decide (c6 = some m) && (decide (c7 = some m) && (decide (c8 = some m) && true))) || ((decide (c0 = some m) && (decide (c3 = some m) && (decide (c6 = some m) && true))) || ((decide (c1 = some m) && (decide (c4 = some m) && (decide (c7 = some m) && true))) || ((decide (c2 = some m) && (decide (c5 = some m) && (decide (c8 = some m) && true))) || ((decide (c0 = some m) && (decide (c4 = some m) && (decide (c8 = some m) && true))) || ((decide (c2 = some m) && (decide (c4 = some m) && (decide (c6 = some m) && true))) || false)))))))) = false := hno m
    obtain ⟨hn0, hrest0⟩ := orfmp hno2
    obtain ⟨hn1, hrest1⟩ := orfmp hrest0
    obtain ⟨hn2, hrest2⟩ := orfmp hrest1
    obtain ⟨hn3, hrest3⟩ := orfmp hrest2
    obtain ⟨hn4, hrest4⟩ := orfmp hrest3
    obtain ⟨hn5, hrest5⟩ := orfmp hrest4
    obtain ⟨hn6, hrest6⟩ := orfmp hrest5
    obtain ⟨hn7, -⟩ := orfmp hrest6
    show ((decide (c0 = some m) && (decide (c1 = some m) && (decide (c2 = some m) && true))) || ((decide (c3 = some m) && (decide (c4 = some m) && (decide (c5 = some m) && true))) || ((decide (c6 = some m) && (decide (c7 = some m) && (decide (some letter = some m) && true))) || ((decide (c0 = some m) && (decide (c3 = some m) && (decide (c6 = some m) && true))) || ((decide (c1 = some m) && (decide (c4 = some m) && (decide (c7 = some m) && true))) || ((decide (c2 = some m) && (decide (c5 = some m) && (decide (some letter = some m) && true))) || ((decide (c0 = some m) && (decide (c4 = some m) && (decide (some letter = some m) && true))) || ((decide (c2 = some m) && (decide (c4 = some m) && (decide (c6 = some m) && true))) || false)))))))) = false
    by_cases hm : letter = m
    · subst hm
      exact orf hn0 (orf hn1 (orf hrow2 (orf hn3 (orf hn4 (orf hcol2 (orf hd1 (orf hn7 (rfl))))))))
    · have hx : decide ((some letter : Cell) = some m) = false :=
        decide_eq_false (fun hq => hm (Option.some.inj hq))
      exact orf (hn0) (orf (hn1) (orf (andf2 (andf2 (andf1 (hx)))) (orf (hn3) (orf (hn4) (orf (andf2 (andf2 (andf1 (hx)))) (orf (andf2 (andf2 (andf1 (hx)))) (orf (hn7) (rfl))))))))

theorem moveState_board (g : TicTacToe) (m : Nat) (letter : Letter) :
    (moveState g m letter).board = g.board.set m (some letter) := rfl

theorem moveState_winner_pos {g : TicTacToe} {m : Nat} {letter : Letter}
    (h : check_winner (g.board.set m (some letter)) m letter = true) :
    (moveState g m letter).current_winner = some letter := by
  rw [moveState]
  simp [h]

theorem moveState_winner_neg {g : TicTacToe} {m : Nat} {letter : Letter}
    (h : check_winner (g.board.set m (some letter)) m letter = false) :
    (moveState g m letter).current_winner = g.current_winner := by
  rw [moveState]
  simp [h]

theorem playAll_append (ms : List (Int × Letter)) (mv : Int × Letter) :
    playAll (ms ++ [mv]) = (make_move (playAll ms) mv.1 mv.2).1 := by
  rw [playAll, List.foldl_append]
  rfl

theorem playAll_inv (ms : List (Int × Letter)) : winnerInv (playAll ms) := by
  induction ms using List.reverseRecOn with
  | nil =>
    refine ⟨rfl, ?_, ?_⟩
    · intro _ m
      cases m <;> rfl
    · intro w hw
      exact absurd hw (by rw [show playAll [] = initialGame from rfl]; simp [initialGame])
  | append_singleton ms mv ih =>
    rw [playAll_append]
    obtain ⟨hlen, hnone, hsome⟩ := ih
    by_cases hacc : ∃ i ∈ available_moves (playAll ms), (i : Int) = mv.1
    · obtain ⟨i, hi, heq⟩ := hacc
      have hmm := make_move_accept' (g := playAll ms) hi mv.2
      rw [show Int.ofNat i = mv.1 from heq] at hmm
      rw [hmm]
      have hi9 : i < 9 := by
        have := available_moves_lt hi
        omega
      have hlen' : (moveState (playAll ms) i mv.2).board.length = 9 := by
        rw [moveState_board, List.length_set]
        exact hlen
      cases hcw : check_winner ((playAll ms).board.set i (some mv.2)) i mv.2 with
      | true =>
        refine ⟨hlen', ?_, ?_⟩
        · intro hn
          rw [moveState_winner_pos hcw] at hn
          exact absurd hn (by simp)
        · intro w hww
          rw [moveState_winner_pos hcw] at hww
          injection hww with hww'
          subst hww'
          rw [moveState_board]
          exact check_winner_lineWin hlen' hi9 hcw
      | false =>
        cases hw : (playAll ms).current_winner with
        | none =>
          refine ⟨hlen', ?_, ?_⟩
          · intro _ m
            rw [moveState_board]
            exact check_winner_complete hlen hi9 (hnone hw) hcw m
          · intro w hww
            rw [moveState_winner_neg hcw, hw] at hww
            exact absurd hww (by simp)
        | some w0 =>
          refine ⟨hlen', ?_, ?_⟩
          · intro hn
            rw [moveState_winner_neg hcw, hw] at hn
            exact absurd hn (by simp)
          · intro w hww
            rw [moveState_winner_neg hcw, hw] at hww
            injection hww with hww'
            subst hww'
            rw [moveState_board]
            exact lineWin_set_of_empty _ (mem_available_moves.mp hi) (hsome _ hw)
    · push_neg at hacc
      rw [make_move_reject hacc]
      exact ⟨hlen, hnone, hsome⟩

/-! ## C4: the claim -/

/-- C4 (amended): `check_winner` tests the row and the column through the
played square always, and the two diagonals exactly when the square index is
even; on every board built by `make_move` calls, if some line is complete
and all complete lines carry the same mark, the recorded winner is that
mark; and a board built by `make_move` calls with no complete line has no
recorded winner. -/
theorem win_detection_lines :
    (∀ (b : List Cell) (square : Nat) (letter : Letter),
      check_winner b square letter =
        (rowAll b square letter || colAll b square letter ||
          (decide (square % 2 = 0) && diagsAll b letter))) ∧
    (∀ (ms : List (Int × Letter)) (m : Letter),
      lineWin (playAll ms).board m = true →
      (∀ m', lineWin (playAll ms).board m' = true → m' = m) →
      (playAll ms).current_winner = some m) ∧
    (∀ ms : List (Int × Letter),
      empty_squares (playAll ms) = false →
      (∀ m, lineWin (playAll ms).board m = false) →
      (playAll ms).current_winner = none) := by
  refine ⟨check_winner_char, ?_, ?_⟩
  · intro ms m hm huniq
    obtain ⟨-, hnone, hsome⟩ := playAll_inv ms
    cases hw : (playAll ms).current_winner with
    | none =>
      rw [hnone hw m] at hm
      exact Bool.noConfusion hm
    | some w =>
      rw [huniq w (hsome w hw)]
  · intro ms _ hno
    obtain ⟨-, -, hsome⟩ := playAll_inv ms
    cases hw : (playAll ms).current_winner with
    | none => rfl
    | some w =>
      have h2 := hsome w hw
      rw [hno w] at h2
      exact Bool.noConfusion h2

/-- C4 witness: three `x` moves across the top row leave `x` as recorded
winner, and on the fresh full-of-draws board no winner is recorded. -/
theorem win_detection_lines_witness :
    (playAll [(0, Letter.X), (1, Letter.X), (2, Letter.X)]).current_winner =
      some Letter.X :=
  win_detection_lines.2.1 [(0, Letter.X), (1, Letter.X), (2, Letter.X)] Letter.X
    (by decide)
    (by
      intro m' h
      cases m'
      · rfl
      · exact absurd h (by decide))

/-- C4 counterexample: if play continues past `x`'s completed top row and
`o` then completes the middle row, the recorded winner is `o`, although the
board holds a full row set entirely to `x` - so a complete line does not
imply that `current_winner` equals its mark. -/
theorem win_detection_lines_cex :
    lineWin (playAll [(0, Letter.X), (1, Letter.X), (2, Letter.X),
                      (3, Letter.O), (4, Letter.O), (5, Letter.O)]).board Letter.X = true ∧
    (playAll [(0, Letter.X), (1, Letter.X), (2, Letter.X),
              (3, Letter.O), (4, Letter.O), (5, Letter.O)]).current_winner = some Letter.O ∧
    (playAll [(0, Letter.X), (1, Letter.X), (2, Letter.X),
              (3, Letter.O), (4, Letter.O), (5, Letter.O)]).current_winner ≠ some Letter.X := by
  refine ⟨by decide, by decide, by decide⟩

/-! ## Purification of the search on clean states -/

theorem advOf_advOf (me adv : Letter) (hne : me ≠ adv) (p : Letter) :
    advOf me adv (advOf me adv p) = p := by
  cases me <;> cases adv <;> cases p <;> simp_all [advOf]

theorem minimaxF_succ (me adv : Letter) (fuel : Nat) (g : TicTacToe) (player : Letter) :
    minimaxF me adv (fuel + 1) g player =
      (if g.current_winner = some (advOf me adv player) then
        some ({ position := none, score := termScore me (advOf me adv player) g }, g)
      else if !(empty_squares g) then
        some ({ position := none, score := Score.int 0 }, g)
      else
        (available_moves g).foldl
          (mmStepG (fun g' p' => minimaxF me adv fuel g' p') me player
            (advOf me adv player))
          (some ((if player = me then { position := none, score := Score.negInf }
                  else { position := none, score := Score.posInf }), g))) := rfl

theorem mm_winner_term {me adv : Letter} {g : TicTacToe} {player : Letter} (fuel : Nat)
    (hw : g.current_winner = some (advOf me adv player)) :
    minimaxF me adv (fuel + 1) g player =
      some ({ position := none, score := termScore me (advOf me adv player) g }, g) := by
  rw [minimaxF_succ, if_pos hw]

theorem mm_full_term {me adv : Letter} {g : TicTacToe} {player : Letter} (fuel : Nat)
    (hw : g.current_winner ≠ some (advOf me adv player)) (he : empty_squares g = false) :
    minimaxF me adv (fuel + 1) g player =
      some ({ position := none, score := Score.int 0 }, g) := by
  rw [minimaxF_succ, if_neg hw, he]
  rfl

theorem mm_loop {me adv : Letter} {g : TicTacToe} {player : Letter}
    (hw : g.current_winner = none)
    (hch : ∀ m ∈ available_moves g, ∃ res,
      minimaxF me adv (num_empty_squares g) (moveState g m player) (advOf me adv player)
        = some (res, moveState g m player)) :
    ∀ (l : List Nat), (∀ m ∈ l, m ∈ available_moves g) → ∀ (best : MMResult),
      l.foldl (mmStepG (fun g' p' => minimaxF me adv (num_empty_squares g) g' p')
          me player (advOf me adv player)) (some (best, g)) =
        some (l.foldl (fun b m => stepChoice me player b m
          (childScore me adv g player m)) best, g) := by
  intro l
  induction l with
  | nil =>
    intro _ best
    rfl
  | cons m t ih =>
    intro hsub best
    have hm : m ∈ available_moves g := hsub m (List.mem_cons_self _ _)
    obtain ⟨res, hres⟩ := hch m hm
    rw [List.foldl_cons, List.foldl_cons]
    have hg3 : ({ board := (moveState g m player).board.set m none,
                  current_winner := none } : TicTacToe) = g := by
      rw [moveState_board, set_restore hm player, ← hw]
    have hstep : mmStepG (fun g' p' => minimaxF me adv (num_empty_squares g) g' p')
        me player (advOf me adv player) (some (best, g)) m =
        some (stepChoice me player best m (childScore me adv g player m), g) := by
      have hcs : childScore me adv g player m = res.score := by
        rw [childScore, hres]
      rw [mmStepG]
      simp only [make_move_accept' hm, hres]
      rw [hg3, hcs, stepChoice]
      have hproj : ({ position := some m, score := res.score } : MMResult).score =
          res.score := rfl
      rw [hproj]
      by_cases hp : player = me
      · rw [if_pos hp, if_pos hp]
        by_cases hlt : Score.lt best.score res.score = true
        · rw [if_pos hlt, if_pos hlt]
        · rw [if_neg hlt, if_neg hlt]
      · rw [if_neg hp, if_neg hp]
        by_cases hlt : Score.lt res.score best.score = true
        · rw [if_pos hlt, if_pos hlt]
        · rw [if_neg hlt, if_neg hlt]
    rw [hstep]
    exact ih (fun x hx => hsub x (List.mem_cons_of_mem _ hx)) _

theorem mm_spec {me adv : Letter} (hne : me ≠ adv) :
    ∀ (g : TicTacToe) (player : Letter), g.current_winner = none →
      minimaxF me adv (num_empty_squares g + 1) g player =
        some (mmPure me adv g player, g) := by
  suffices H : ∀ (e : Nat) (g : TicTacToe) (player : Letter), num_empty_squares g = e →
      g.current_winner = none →
      minimaxF me adv (num_empty_squares g + 1) g player =
        some (mmPure me adv g player, g) by
    intro g player hw
    exact H (num_empty_squares g) g player rfl hw
  intro e
  induction e using Nat.strong_induction_on with
  | _ e ih =>
    intro g player hge hw
    have hwneq : ¬ g.current_winner = some (advOf me adv player) := by
      rw [hw]
      simp
    cases hemp : empty_squares g with
    | false =>
      rw [mm_full_term _ hwneq hemp, mmPure, if_neg (by rw [hemp]; simp)]
    | true =>
      have hch : ∀ m ∈ available_moves g, ∃ res,
          minimaxF me adv (num_empty_squares g) (moveState g m player) (advOf me adv player)
            = some (res, moveState g m player) := by
        intro m hm
        have hec : num_empty_squares (moveState g m player) + 1 = num_empty_squares g :=
          num_empty_moveState hm player
        rcases moveState_winner_cases (g := g) m player with hwc | hwc
        · refine ⟨⟨none,
              termScore me (advOf me adv (advOf me adv player)) (moveState g m player)⟩, ?_⟩
          have hterm : (moveState g m player).current_winner
              = some (advOf me adv (advOf me adv player)) := by
            rw [advOf_advOf me adv hne player]
            exact hwc
          rw [← hec]
          exact mm_winner_term _ hterm
        · have hwn : (moveState g m player).current_winner = none := by
            rw [hwc, hw]
          refine ⟨mmPure me adv (moveState g m player) (advOf me adv player), ?_⟩
          have hlt : num_empty_squares (moveState g m player) < e := by
            omega
          have := ih _ hlt (moveState g m player) (advOf me adv player) rfl hwn
          rw [← hec]
          exact this
      have hloop := mm_loop hw hch (available_moves g) (fun m hm => hm)
        (if player = me then { position := none, score := Score.negInf }
         else { position := none, score := Score.posInf })
      have hne2 : ¬((!empty_squares g) = true) := by
        rw [hemp]
        simp
      rw [minimaxF_succ, if_neg hwneq, if_neg hne2, hloop, mmPure, if_pos hemp, bestFold,
        List.foldl_map]

/-! ## Analysis of the move-loop fold -/

theorem stepChoice_max {me player : Letter} (hp : player = me) (m0 q1 : Nat) (n0 k1 : Int) :
    stepChoice me player ⟨some m0, Score.int n0⟩ q1 (Score.int k1) =
      if n0 < k1 then (⟨some q1, Score.int k1⟩ : MMResult) else ⟨some m0, Score.int n0⟩ := by
  rw [stepChoice]
  have hproj : ({ position := some q1, score := Score.int k1 } : MMResult).score =
      Score.int k1 := rfl
  rw [if_pos hp]
  by_cases hlt : n0 < k1
  · rw [if_pos (by rw [hproj]; exact decide_eq_true hlt), if_pos hlt]
  · rw [if_neg (by rw [hproj]; show ¬(decide (n0 < k1) = true); simp [hlt]), if_neg hlt]

theorem stepChoice_min {me player : Letter} (hp : ¬ player = me) (m0 q1 : Nat) (n0 k1 : Int) :
    stepChoice me player ⟨some m0, Score.int n0⟩ q1 (Score.int k1) =
      if k1 < n0 then (⟨some q1, Score.int k1⟩ : MMResult) else ⟨some m0, Score.int n0⟩ := by
  rw [stepChoice]
  have hproj : ({ position := some q1, score := Score.int k1 } : MMResult).score =
      Score.int k1 := rfl
  rw [if_neg hp]
  by_cases hlt : k1 < n0
  · rw [if_pos (by rw [hproj]; exact decide_eq_true hlt), if_pos hlt]
  · rw [if_neg (by rw [hproj]; show ¬(decide (k1 < n0) = true); simp [hlt]), if_neg hlt]

theorem foldMax_spec {me player : Letter} (hp : player = me) :
    ∀ (l : List (Nat × Score)) (m0 : Nat) (n0 : Int),
      (∀ q ∈ l, ∃ k : Int, q.2 = Score.int k) →
      ∃ m n, (l.foldl (fun b q => stepChoice me player b q.1 q.2)
          ⟨some m0, Score.int n0⟩ = ⟨some m, Score.int n⟩) ∧
        ((m, Score.int n) ∈ l ∨ (m = m0 ∧ n = n0)) ∧ n0 ≤ n ∧
        (∀ m' k, (m', Score.int k) ∈ l → k ≤ n) := by
  intro l
  induction l with
  | nil =>
    intro m0 n0 _
    exact ⟨m0, n0, rfl, Or.inr ⟨rfl, rfl⟩, le_refl _, by simp⟩
  | cons q t ih =>
    intro m0 n0 hint
    obtain ⟨k1, hk1⟩ := hint q (List.mem_cons_self _ _)
    have hq : q = (q.1, Score.int k1) := by
      rw [← hk1]
    rw [List.foldl_cons, hk1, stepChoice_max hp]
    by_cases hlt : n0 < k1
    · rw [if_pos hlt]
      obtain ⟨m, n, hfold, hmem, hbound, hall⟩ :=
        ih q.1 k1 (fun q' hq' => hint q' (List.mem_cons_of_mem _ hq'))
      refine ⟨m, n, hfold, ?_, by omega, ?_⟩
      · rcases hmem with hmem | ⟨rfl, rfl⟩
        · exact Or.inl (List.mem_cons_of_mem _ hmem)
        · exact Or.inl (by rw [hq]; exact List.mem_cons_self _ _)
      · intro m' k hk
        rcases List.mem_cons.mp hk with hk | hk
        · have hkk : k = k1 := by
            have h2 := congrArg Prod.snd hk
            rw [hk1] at h2
            injection h2 with h3
          omega
        · exact hall m' k hk
    · rw [if_neg hlt]
      obtain ⟨m, n, hfold, hmem, hbound, hall⟩ :=
        ih m0 n0 (fun q' hq' => hint q' (List.mem_cons_of_mem _ hq'))
      refine ⟨m, n, hfold, ?_, hbound, ?_⟩
      · rcases hmem with hmem | hmm
        · exact Or.inl (List.mem_cons_of_mem _ hmem)
        · exact Or.inr hmm
      · intro m' k hk
        rcases List.mem_cons.mp hk with hk | hk
        · have hkk : k = k1 := by
            have h2 := congrArg Prod.snd hk
            rw [hk1] at h2
            injection h2 with h3
          omega
        · exact hall m' k hk

theorem foldMin_spec {me player : Letter} (hp : ¬ player = me) :
    ∀ (l : List (Nat × Score)) (m0 : Nat) (n0 : Int),
      (∀ q ∈ l, ∃ k : Int, q.2 = Score.int k) →
      ∃ m n, (l.foldl (fun b q => stepChoice me player b q.1 q.2)
          ⟨some m0, Score.int n0⟩ = ⟨some m, Score.int n⟩) ∧
        ((m, Score.int n) ∈ l ∨ (m = m0 ∧ n = n0)) ∧ n ≤ n0 ∧
        (∀ m' k, (m', Score.int k) ∈ l → n ≤ k) := by
  intro l
  induction l with
  | nil =>
    intro m0 n0 _
    exact ⟨m0, n0, rfl, Or.inr ⟨rfl, rfl⟩, le_refl _, by simp⟩
  | cons q t ih =>
    intro m0 n0 hint
    obtain ⟨k1, hk1⟩ := hint q (List.mem_cons_self _ _)
    have hq : q = (q.1, Score.int k1) := by
      rw [← hk1]
    rw [List.foldl_cons, hk1, stepChoice_min hp]
    by_cases hlt : k1 < n0
    · rw [if_pos hlt]
      obtain ⟨m, n, hfold, hmem, hbound, hall⟩ :=
        ih q.1 k1 (fun q' hq' => hint q' (List.mem_cons_of_mem _ hq'))
      refine ⟨m, n, hfold, ?_, by omega, ?_⟩
      · rcases hmem with hmem | ⟨rfl, rfl⟩
        · exact Or.inl (List.mem_cons_of_mem _ hmem)
        · exact Or.inl (by rw [hq]; exact List.mem_cons_self _ _)
      · intro m' k hk
        rcases List.mem_cons.mp hk with hk | hk
        · have hkk : k = k1 := by
            have h2 := congrArg Prod.snd hk
            rw [hk1] at h2
            injection h2 with h3
          omega
        · exact hall m' k hk
    · rw [if_neg hlt]
      obtain ⟨m, n, hfold, hmem, hbound, hall⟩ :=
        ih m0 n0 (fun q' hq' => hint q' (List.mem_cons_of_mem _ hq'))
      refine ⟨m, n, hfold, ?_, hbound, ?_⟩
      · rcases hmem with hmem | hmm
        · exact Or.inl (List.mem_cons_of_mem _ hmem)
        · exact Or.inr hmm
      · intro m' k hk
        rcases List.mem_cons.mp hk with hk | hk
        · have hkk : k = k1 := by
            have h2 := congrArg Prod.snd hk
            rw [hk1] at h2
            injection h2 with h3
          omega
        · exact hall m' k hk

/-- The engine node of the fold: result is a legal pair maximising the score. -/
theorem bestFold_max {me player : Letter} (hp : player = me) (l : List (Nat × Score))
    (hl : l ≠ []) (hint : ∀ q ∈ l, ∃ k : Int, q.2 = Score.int k) :
    ∃ m n, bestFold me player l = ⟨some m, Score.int n⟩ ∧ (m, Score.int n) ∈ l ∧
      (∀ m' k, (m', Score.int k) ∈ l → k ≤ n) := by
  match l, hl with
  | q :: t, _ =>
    obtain ⟨k1, hk1⟩ := hint q (List.mem_cons_self _ _)
    have hq : q = (q.1, Score.int k1) := by
      rw [← hk1]
    have hstep : stepChoice me player
        (if player = me then { position := none, score := Score.negInf }
         else { position := none, score := Score.posInf }) q.1 q.2 =
        ⟨some q.1, Score.int k1⟩ := by
      rw [if_pos hp, stepChoice, hk1, if_pos hp]
      have hcond : Score.lt (Score.negInf)
          ({ position := some q.1, score := Score.int k1 } : MMResult).score = true := rfl
      rw [if_pos hcond]
    rw [bestFold, List.foldl_cons, hstep]
    obtain ⟨m, n, hfold, hmem, hbound, hall⟩ :=
      foldMax_spec hp t q.1 k1 (fun q' hq' => hint q' (List.mem_cons_of_mem _ hq'))
    refine ⟨m, n, hfold, ?_, ?_⟩
    · rcases hmem with hmem | ⟨rfl, rfl⟩
      · exact List.mem_cons_of_mem _ hmem
      · rw [hq]
        exact List.mem_cons_self _ _
    · intro m' k hk
      rcases List.mem_cons.mp hk with hk | hk
      · have hkk : k = k1 := by
          have h2 := congrArg Prod.snd hk
          rw [hk1] at h2
          injection h2 with h3
        omega
      · exact hall m' k hk

/-- The adversary node of the fold: result is a legal pair minimising the score. -/
theorem bestFold_min {me player : Letter} (hp : ¬ player = me) (l : List (Nat × Score))
    (hl : l ≠ []) (hint : ∀ q ∈ l, ∃ k : Int, q.2 = Score.int k) :
    ∃ m n, bestFold me player l = ⟨some m, Score.int n⟩ ∧ (m, Score.int n) ∈ l ∧
      (∀ m' k, (m', Score.int k) ∈ l → n ≤ k) := by
  match l, hl with
  | q :: t, _ =>
    obtain ⟨k1, hk1⟩ := hint q (List.mem_cons_self _ _)
    have hq : q = (q.1, Score.int k1) := by
      rw [← hk1]
    have hstep : stepChoice me player
        (if player = me then { position := none, score := Score.negInf }
         else { position := none, score := Score.posInf }) q.1 q.2 =
        ⟨some q.1, Score.int k1⟩ := by
      rw [if_neg hp, stepChoice, hk1, if_neg hp]
      have hcond : Score.lt ({ position := some q.1, score := Score.int k1 } : MMResult).score
          Score.posInf = true := rfl
      rw [if_pos hcond]
    rw [bestFold, List.foldl_cons, hstep]
    obtain ⟨m, n, hfold, hmem, hbound, hall⟩ :=
      foldMin_spec hp t q.1 k1 (fun q' hq' => hint q' (List.mem_cons_of_mem _ hq'))
    refine ⟨m, n, hfold, ?_, ?_⟩
    · rcases hmem with hmem | ⟨rfl, rfl⟩
      · exact List.mem_cons_of_mem _ hmem
      · rw [hq]
        exact List.mem_cons_self _ _
    · intro m' k hk
      rcases List.mem_cons.mp hk with hk | hk
      · have hkk : k = k1 := by
          have h2 := congrArg Prod.snd hk
          rw [hk1] at h2
          injection h2 with h3
        omega
      · exact hall m' k hk

theorem termScore_int (me a : Letter) (g : TicTacToe) :
    ∃ k : Int, termScore me a g = Score.int k := by
  rw [termScore]
  by_cases h : a = me
  · exact ⟨_, if_pos h⟩
  · exact ⟨_, if_neg h⟩

theorem avail_ne_nil_of_empty {g : TicTacToe} (h : empty_squares g = true) :
    available_moves g ≠ [] := by
  intro hnil
  rw [empty_squares, hnil] at h
  simp at h

/-- From a clean state the pure search always produces an integer score. -/
theorem mmPure_int {me adv : Letter} (hne : me ≠ adv) :
    ∀ (g : TicTacToe) (player : Letter), g.current_winner = none →
      ∃ n : Int, (mmPure me adv g player).score = Score.int n := by
  suffices H : ∀ (e : Nat) (g : TicTacToe) (player : Letter), num_empty_squares g = e →
      g.current_winner = none →
      ∃ n : Int, (mmPure me adv g player).score = Score.int n by
    intro g player hw
    exact H (num_empty_squares g) g player rfl hw
  intro e
  induction e using Nat.strong_induction_on with
  | _ e ih =>
    intro g player hge hw
    cases hemp : empty_squares g with
    | false =>
      refine ⟨0, ?_⟩
      rw [mmPure, if_neg (by rw [hemp]; simp)]
    | true =>
      have hchild : ∀ m ∈ available_moves g, ∃ k : Int,
          childScore me adv g player m = Score.int k := by
        intro m hm
        have hec : num_empty_squares (moveState g m player) + 1 = num_empty_squares g :=
          num_empty_moveState hm player
        rcases moveState_winner_cases (g := g) m player with hwc | hwc
        · have hterm : (moveState g m player).current_winner
              = some (advOf me adv (advOf me adv player)) := by
            rw [advOf_advOf me adv hne player]
            exact hwc
          rw [childScore, ← hec,
            mm_winner_term (num_empty_squares (moveState g m player)) hterm]
          exact termScore_int me _ _
        · have hwn : (moveState g m player).current_winner = none := by
            rw [hwc, hw]
          rw [childScore, ← hec, mm_spec hne (moveState g m player) (advOf me adv player) hwn]
          exact ih _ (by omega) (moveState g m player) (advOf me adv player) rfl hwn
      have hl : ((available_moves g).map (fun m => (m, childScore me adv g player m))) ≠ [] := by
        intro hmap
        exact avail_ne_nil_of_empty hemp (List.map_eq_nil.mp hmap)
      have hint : ∀ q ∈ ((available_moves g).map
          (fun m => (m, childScore me adv g player m))), ∃ k : Int, q.2 = Score.int k := by
        intro q hq
        obtain ⟨m, hm, rfl⟩ := List.mem_map.mp hq
        exact hchild m hm
      rw [mmPure, if_pos hemp]
      by_cases hp : player = me
      · obtain ⟨m, n, heq, _, _⟩ := bestFold_max hp _ hl hint
        exact ⟨n, by rw [heq]⟩
      · obtain ⟨m, n, heq, _, _⟩ := bestFold_min hp _ hl hint
        exact ⟨n, by rw [heq]⟩

/-- Every child of a clean position gets an integer score from the search. -/
theorem childScore_int {me adv : Letter} (hne : me ≠ adv) {g : TicTacToe} {player : Letter}
    (hw : g.current_winner = none) {m : Nat} (hm : m ∈ available_moves g) :
    ∃ k : Int, childScore me adv g player m = Score.int k := by
  have hec : num_empty_squares (moveState g m player) + 1 = num_empty_squares g :=
    num_empty_moveState hm player
  rcases moveState_winner_cases (g := g) m player with hwc | hwc
  · have hterm : (moveState g m player).current_winner
        = some (advOf me adv (advOf me adv player)) := by
      rw [advOf_advOf me adv hne player]
      exact hwc
    rw [childScore, ← hec,
      mm_winner_term (num_empty_squares (moveState g m player)) hterm]
    exact termScore_int me _ _
  · have hwn : (moveState g m player).current_winner = none := by
      rw [hwc, hw]
    rw [childScore, ← hec, mm_spec hne (moveState g m player) (advOf me adv player) hwn]
    exact mmPure_int hne (moveState g m player) (advOf me adv player) hwn

/-- The full characterisation of the pure search on a clean, non-full
position: it picks a legal move whose child score is optimal for the seat. -/
theorem mmPure_char {me adv : Letter} (hne : me ≠ adv) {g : TicTacToe} {player : Letter}
    (hw : g.current_winner = none) (hemp : empty_squares g = true) :
    ∃ m n, mmPure me adv g player = ⟨some m, Score.int n⟩ ∧ m ∈ available_moves g ∧
      childScore me adv g player m = Score.int n ∧
      (player = me → ∀ m' ∈ available_moves g, ∀ k : Int,
        childScore me adv g player m' = Score.int k → k ≤ n) ∧
      (¬ player = me → ∀ m' ∈ available_moves g, ∀ k : Int,
        childScore me adv g player m' = Score.int k → n ≤ k) := by
  have hl : ((available_moves g).map (fun m => (m, childScore me adv g player m))) ≠ [] := by
    intro hmap
    exact avail_ne_nil_of_empty hemp (List.map_eq_nil.mp hmap)
  have hint : ∀ q ∈ ((available_moves g).map
      (fun m => (m, childScore me adv g player m))), ∃ k : Int, q.2 = Score.int k := by
    intro q hq
    obtain ⟨m, hm, rfl⟩ := List.mem_map.mp hq
    exact childScore_int hne hw hm
  by_cases hp : player = me
  · obtain ⟨m, n, heq, hmem, hall⟩ := bestFold_max hp _ hl hint
    obtain ⟨m1, hm1, hpair⟩ := List.mem_map.mp hmem
    have hm1m : m1 = m := congrArg Prod.fst hpair
    have hcs : childScore me adv g player m = Score.int n := by
      rw [← hm1m]
      have := congrArg Prod.snd hpair
      rw [← hm1m] at this
      exact this
    refine ⟨m, n, by rw [mmPure, if_pos hemp, heq], by rw [← hm1m]; exact hm1, hcs, ?_, ?_⟩
    · intro _ m' hm' k hk
      exact hall m' k (List.mem_map.mpr ⟨m', hm', by rw [hk]⟩)
    · intro hne2
      exact absurd hp hne2
  · obtain ⟨m, n, heq, hmem, hall⟩ := bestFold_min hp _ hl hint
    obtain ⟨m1, hm1, hpair⟩ := List.mem_map.mp hmem
    have hm1m : m1 = m := congrArg Prod.fst hpair
    have hcs : childScore me adv g player m = Score.int n := by
      rw [← hm1m]
      have := congrArg Prod.snd hpair
      rw [← hm1m] at this
      exact this
    refine ⟨m, n, by rw [mmPure, if_pos hemp, heq], by rw [← hm1m]; exact hm1, hcs, ?_, ?_⟩
    · intro hp2
      exact absurd hp2 hp
    · intro _ m' hm' k hk
      exact hall m' k (List.mem_map.mpr ⟨m', hm', by rw [hk]⟩)

/-! ## C6: the engine only proposes available squares -/

/-- C6: on a non-terminal state with no recorded winner and at least one
move already played (so the random opening branch is not taken), `get_move`
returns the position chosen by `minimax`, and it is always an index in
`available_moves` - never an occupied cell. -/
theorem engine_move_is_available {me adv : Letter} (hne : me ≠ adv) (r : Nat)
    {g : TicTacToe} (hw : g.current_winner = none) (hemp : empty_squares g = true)
    (hplayed : num_empty_squares g ≠ get_rows g * get_cols g) :
    ∃ m, (get_move me adv r g).1 = some m ∧ m ∈ available_moves g := by
  obtain ⟨m, n, hpure, hmem, _⟩ := mmPure_char hne hw hemp
  refine ⟨m, ?_, hmem⟩
  rw [get_move, if_neg hplayed, mm_spec hne g me hw, hpure]

theorem engine_move_is_available_witness :
    ∃ m, (get_move Letter.X Letter.O 0 midGame).1 = some m ∧
      m ∈ available_moves midGame :=
  engine_move_is_available (by decide) 0 (by decide) (by decide) (by decide)

/-! ## C3: the search restores the state; idempotence -/

/-- C3 (amended): on a state with no recorded winner, `minimax` returns
with the board and the win flag exactly as at entry, and so does
`get_move`; and when at least one move has been played (so the random
opening branch is not taken) the move `get_move` returns does not depend on
the randomness source, so calling it twice on the identical state - or on
the state the first call hands back - yields the same move.  On the fully
empty board the opening move is random and two calls may differ. -/
theorem search_restores_state_and_is_idempotent {me adv : Letter} (hne : me ≠ adv)
    {g : TicTacToe} (hw : g.current_winner = none) (r r' : Nat) :
    (∃ res, minimaxF me adv (num_empty_squares g + 1) g me = some (res, g)) ∧
    (get_move me adv r g).2 = g ∧
    (num_empty_squares g ≠ get_rows g * get_cols g →
      (get_move me adv r g).1 = (get_move me adv r' g).1 ∧
      get_move me adv r' ((get_move me adv r g).2) = get_move me adv r g) := by
  have hmm := mm_spec hne g me hw
  have hval : ∀ s : Nat, num_empty_squares g ≠ get_rows g * get_cols g →
      get_move me adv s g = ((mmPure me adv g me).position, g) := by
    intro s hplayed
    rw [get_move, if_neg hplayed, hmm]
  refine ⟨⟨mmPure me adv g me, hmm⟩, ?_, ?_⟩
  · rw [get_move]
    by_cases hfull : num_empty_squares g = get_rows g * get_cols g
    · rw [if_pos hfull]
    · rw [if_neg hfull, hmm]
  · intro hplayed
    refine ⟨by rw [hval r hplayed, hval r' hplayed], ?_⟩
    rw [hval r hplayed, hval r' hplayed]

theorem search_restores_state_and_is_idempotent_witness :
    (∃ res, minimaxF Letter.X Letter.O (num_empty_squares midGame + 1) midGame Letter.X =
      some (res, midGame)) ∧
    (get_move Letter.X Letter.O 0 midGame).2 = midGame ∧
    (num_empty_squares midGame ≠ get_rows midGame * get_cols midGame →
      (get_move Letter.X Letter.O 0 midGame).1 = (get_move Letter.X Letter.O 1 midGame).1 ∧
      get_move Letter.X Letter.O 1 ((get_move Letter.X Letter.O 0 midGame).2) =
        get_move Letter.X Letter.O 0 midGame) :=
  search_restores_state_and_is_idempotent (by decide) (by decide) 0 1

/-- C3 counterexample: on the fully empty board (a non-terminal state with
no recorded winner) the opening move comes from `random.choice`, and two
calls of `get_move` on the identical state return different moves for
different random draws. -/
theorem search_idempotence_cex :
    initialGame.current_winner = none ∧ empty_squares initialGame = true ∧
    (get_move Letter.X Letter.O 0 initialGame).1 = some 0 ∧
    (get_move Letter.X Letter.O 1 initialGame).1 = some 1 := by
  refine ⟨rfl, by decide, by decide, by decide⟩

theorem otherL_eq {me adv : Letter} (hne : me ≠ adv) : otherL me = adv := by
  cases me <;> cases adv <;> simp_all [otherL]

theorem mem_of_prefOrder {l : List Nat} {m : Nat} (h : m ∈ prefOrder l) : m ∈ l := by
  rw [prefOrder] at h
  rcases List.mem_append.mp h with h | h
  · exact of_decide_eq_true (List.mem_filter.mp h).2
  · exact List.mem_of_mem_filter h

theorem prefOrder_complete {l : List Nat} {m : Nat} (h : m ∈ l) : m ∈ prefOrder l := by
  rw [prefOrder]
  by_cases hp : m ∈ [4, 0, 2, 6, 8, 1, 3, 5, 7]
  · exact List.mem_append.mpr (Or.inl (List.mem_filter.mpr ⟨hp, decide_eq_true h⟩))
  · exact List.mem_append.mpr (Or.inr (List.mem_filter.mpr ⟨h, by simp [hp]⟩))

theorem mem_of_sideOrder {g : TicTacToe} {p : Letter} {l : List Nat} {m : Nat}
    (h : m ∈ sideOrder g p l) : m ∈ l := by
  rw [sideOrder] at h
  rcases List.mem_append.mp h with h | h
  · exact mem_of_prefOrder (List.mem_of_mem_filter h)
  · exact mem_of_prefOrder (List.mem_of_mem_filter h)

theorem sideOrder_complete {g : TicTacToe} {p : Letter} {l : List Nat} {m : Nat}
    (h : m ∈ l) : m ∈ sideOrder g p l := by
  rw [sideOrder]
  have hpre := prefOrder_complete h
  by_cases hw : winsNow g p m = true
  · exact List.mem_append.mpr (Or.inl (List.mem_filter.mpr ⟨hpre, hw⟩))
  · exact List.mem_append.mpr (Or.inr (List.mem_filter.mpr ⟨hpre, by simp [hw]⟩))

theorem noLoseF_succ (me : Letter) (fuel : Nat) (g : TicTacToe) (player : Letter) :
    noLoseF me (fuel + 1) g player =
      (if empty_squares g then
        (if player = me then
          (sideOrder g me (available_moves g)).any (fun m =>
            match (moveState g m me).current_winner with
            | some w => decide (w = me)
            | none => noLoseF me fuel (moveState g m me) (otherL me))
        else
          (sideOrder g player (available_moves g)).all (fun m =>
            match (moveState g m player).current_winner with
            | some _ => false
            | none => noLoseF me fuel (moveState g m player) me))
      else true) := rfl

theorem childScore_clean {me adv : Letter} (hne : me ≠ adv) {g : TicTacToe}
    {player : Letter} {m : Nat} (hm : m ∈ available_moves g)
    (hwn : (moveState g m player).current_winner = none) :
    childScore me adv g player m =
      (mmPure me adv (moveState g m player) (advOf me adv player)).score := by
  have hec : num_empty_squares (moveState g m player) + 1 = num_empty_squares g :=
    num_empty_moveState hm player
  rw [childScore, ← hec, mm_spec hne _ _ hwn]

theorem childScore_win {me adv : Letter} (hne : me ≠ adv) {g : TicTacToe}
    {player : Letter} {m : Nat} (hm : m ∈ available_moves g)
    (hwc : (moveState g m player).current_winner = some player) :
    childScore me adv g player m = termScore me player (moveState g m player) := by
  have hec : num_empty_squares (moveState g m player) + 1 = num_empty_squares g :=
    num_empty_moveState hm player
  have hterm : (moveState g m player).current_winner
      = some (advOf me adv (advOf me adv player)) := by
    rw [advOf_advOf me adv hne player]
    exact hwc
  rw [childScore, ← hec, mm_winner_term _ hterm, advOf_advOf me adv hne player]

/-- Soundness of the certificate search: if `me` provably cannot lose from a
clean state, the minimax score of that state for `me` is a non-negative
integer. -/
theorem noLose_sound {me adv : Letter} (hne : me ≠ adv) :
    ∀ (g : TicTacToe) (player : Letter), g.current_winner = none →
      noLoseF me (num_empty_squares g + 1) g player = true →
      ∃ n : Int, 0 ≤ n ∧ (mmPure me adv g player).score = Score.int n := by
  suffices H : ∀ (e : Nat) (g : TicTacToe) (player : Letter), num_empty_squares g = e →
      g.current_winner = none →
      noLoseF me (num_empty_squares g + 1) g player = true →
      ∃ n : Int, 0 ≤ n ∧ (mmPure me adv g player).score = Score.int n by
    intro g player hw hnl
    exact H (num_empty_squares g) g player rfl hw hnl
  intro e
  induction e using Nat.strong_induction_on with
  | _ e ih =>
    intro g player hge hw hnl
    cases hemp : empty_squares g with
    | false =>
      exact ⟨0, le_refl 0, by rw [mmPure, if_neg (by rw [hemp]; simp)]⟩
    | true =>
      rw [noLoseF_succ, if_pos hemp] at hnl
      by_cases hp : player = me
      · rw [if_pos hp] at hnl
        have hp2 : me = player := hp.symm
        subst hp2
        obtain ⟨m, hmord, hbr⟩ := List.any_eq_true.mp hnl
        have hm : m ∈ available_moves g := mem_of_sideOrder hmord
        obtain ⟨mc, n, hpure, hmc, hcs, hmax, _⟩ := mmPure_char hne hw hemp
        rcases moveState_winner_cases (g := g) m me with hwc | hwc
        · have hint : childScore me adv g me m =
              Score.int ((num_empty_squares (moveState g m me) : Int) + 1) := by
            rw [childScore_win hne hm hwc, termScore, if_pos rfl]
          have hle := hmax rfl m hm _ hint
          exact ⟨n, by omega, by rw [hpure]⟩
        · have hwn : (moveState g m me).current_winner = none := by
            rw [hwc, hw]
          have hbr2 : noLoseF me (num_empty_squares g) (moveState g m me)
              (otherL me) = true := by
            rw [hwn] at hbr
            exact hbr
          rw [otherL_eq hne] at hbr2
          have hec : num_empty_squares (moveState g m me) + 1 = num_empty_squares g :=
            num_empty_moveState hm me
          rw [← hec] at hbr2
          obtain ⟨n', hn', hsc⟩ := ih _ (by omega) (moveState g m me) adv rfl hwn hbr2
          have hint : childScore me adv g me m = Score.int n' := by
            rw [childScore_clean hne hm hwn, advOf, if_pos rfl]
            exact hsc
          have hle := hmax rfl m hm n' hint
          exact ⟨n, by omega, by rw [hpure]⟩
      · rw [if_neg hp] at hnl
        obtain ⟨mc, n, hpure, hmc, hcs, _, hmin⟩ := mmPure_char hne hw hemp
        have hbr := List.all_eq_true.mp hnl mc (sideOrder_complete hmc)
        rcases moveState_winner_cases (g := g) mc player with hwc | hwc
        · rw [hwc] at hbr
          exact absurd hbr (by simp)
        · have hwn : (moveState g mc player).current_winner = none := by
            rw [hwc, hw]
          have hbr2 : noLoseF me (num_empty_squares g) (moveState g mc player) me = true := by
            rw [hwn] at hbr
            exact hbr
          have hec : num_empty_squares (moveState g mc player) + 1 = num_empty_squares g :=
            num_empty_moveState hmc player
          rw [← hec] at hbr2
          obtain ⟨n', hn', hsc⟩ := ih _ (by omega) (moveState g mc player) me rfl hwn hbr2
          have hint : childScore me adv g player mc = Score.int n' := by
            rw [childScore_clean hne hmc hwn, advOf, if_neg hp]
            exact hsc
          rw [hcs] at hint
          injection hint with hnn
          exact ⟨n, by omega, by rw [hpure]⟩

theorem play_succ (s1 s2 : TicTacToe → Int) (l1 l2 : Letter) (fuel : Nat)
    (g : TicTacToe) (letter : Letter) :
    play s1 s2 l1 l2 (fuel + 1) g letter =
      (if empty_squares g then
        match ((make_move g ((if letter = l1 then s1 else s2) g) letter).1).current_winner with
        | some _ => some (some letter)
        | none =>
          play s1 s2 l1 l2 fuel
            ((make_move g ((if letter = l1 then s1 else s2) g) letter).1)
            (if letter = l1 then l2 else l1)
      else some none) := rfl

theorem randomChoice_mem (r : Nat) {l : List Nat} (hl : l ≠ []) :
    ∃ m ∈ l, randomChoice r l = some m := by
  have hlen : 0 < l.length := List.length_pos.mpr hl
  have hidx : r % l.length < l.length := Nat.mod_lt _ hlen
  refine ⟨l.get ⟨r % l.length, hidx⟩, List.get_mem _ _ _, ?_⟩
  rw [randomChoice]
  exact List.get?_eq_get hidx

theorem engineStrat_legal {me adv : Letter} (hne : me ≠ adv) (r : TicTacToe → Nat) :
    legalStrat (engineStrat me adv r) := by
  intro g hw hemp
  by_cases hfull : num_empty_squares g = get_rows g * get_cols g
  · obtain ⟨m, hm, hrc⟩ := randomChoice_mem (r g) (avail_ne_nil_of_empty hemp)
    refine ⟨m, hm, ?_⟩
    rw [engineStrat, get_move, if_pos hfull, hrc]
  · obtain ⟨m, n, hpure, hmem, _⟩ := @mmPure_char me adv hne g me hw hemp
    refine ⟨m, hmem, ?_⟩
    rw [engineStrat, get_move, if_neg hfull, mm_spec hne g me hw, hpure]

theorem engineStrat_mm {me adv : Letter} (hne : me ≠ adv) (r : TicTacToe → Nat) :
    ∀ g : TicTacToe, g.current_winner = none → empty_squares g = true →
      num_empty_squares g ≠ get_rows g * get_cols g →
      ∃ m, (mmPure me adv g me).position = some m ∧
        engineStrat me adv r g = Int.ofNat m := by
  intro g hw hemp hne9
  obtain ⟨m, n, hpure, hmem, _⟩ := @mmPure_char me adv hne g me hw hemp
  refine ⟨m, by rw [hpure], ?_⟩
  rw [engineStrat, get_move, if_neg hne9, mm_spec hne g me hw, hpure]

/-- The game-loop invariant: while the engine (`me`) moves into positions
it searched and the opponent (`o`) plays legally, a non-negative minimax
score for the mover's seat persists, the opponent never completes a line,
and the loop terminates within one iteration per empty square plus one. -/
theorem play_inv {me o : Letter} (hne : me ≠ o) {sE t : TicTacToe → Int}
    (hsE : ∀ g : TicTacToe, g.current_winner = none → empty_squares g = true →
      num_empty_squares g ≠ get_rows g * get_cols g →
      ∃ m, (mmPure me o g me).position = some m ∧ sE g = Int.ofNat m)
    (ht : legalStrat t)
    (s1 s2 : TicTacToe → Int) (l1 l2 : Letter)
    (hseat : (l1 = me ∧ l2 = o) ∨ (l1 = o ∧ l2 = me))
    (hs_me : (if me = l1 then s1 else s2) = sE)
    (hs_o : (if o = l1 then s1 else s2) = t) :
    ∀ (fuel : Nat) (g : TicTacToe) (mover : Letter),
      g.current_winner = none →
      num_empty_squares g ≤ 9 →
      (mover = me ∨ mover = o) →
      (mover = me → num_empty_squares g ≠ get_rows g * get_cols g ∧
        ∃ n : Int, 0 ≤ n ∧ (mmPure me o g me).score = Score.int n) →
      (mover = o → ∃ n : Int, 0 ≤ n ∧ (mmPure me o g o).score = Score.int n) →
      (∀ out, play s1 s2 l1 l2 fuel g mover = some out → out ≠ some o) ∧
      (num_empty_squares g < fuel → ∃ out, play s1 s2 l1 l2 fuel g mover = some out) := by
  intro fuel
  induction fuel with
  | zero =>
    intro g mover hw hle hmv hinvme hinvo
    have h0 : play s1 s2 l1 l2 0 g mover = none := rfl
    constructor
    · intro out hout
      rw [h0] at hout
      exact absurd hout (by simp)
    · intro hlt
      exact absurd hlt (by omega)
  | succ fuel ihf =>
    intro g mover hw hle hmv hinvme hinvo
    cases hemp : empty_squares g with
    | false =>
      have hpl : play s1 s2 l1 l2 (fuel + 1) g mover = some none := by
        rw [play_succ, if_neg (by rw [hemp]; simp)]
      constructor
      · intro out hout
        rw [hpl] at hout
        injection hout with h3
        intro hc
        rw [← h3] at hc
        exact Option.noConfusion hc
      · intro _
        exact ⟨none, hpl⟩
    | true =>
      rcases hmv with hmv | hmv
      · have hms : me = mover := hmv.symm
        subst hms
        obtain ⟨hne9, n, hn0, hsc⟩ := hinvme rfl
        obtain ⟨m, hpos, hsEg⟩ := hsE g hw hemp hne9
        obtain ⟨mc, nc, hpure, hmc, hcs, hmax, _⟩ := @mmPure_char me o hne g me hw hemp
        have hm_eq : mc = m := by
          rw [hpure] at hpos
          have h2 : some mc = some m := hpos
          injection h2
        subst hm_eq
        have hn_eq : nc = n := by
          rw [hpure] at hsc
          have h2 : Score.int nc = Score.int n := hsc
          injection h2
        have hmove : (make_move g ((if me = l1 then s1 else s2) g) me).1 =
            moveState g mc me := by
          rw [hs_me, hsEg, make_move_accept' hmc]
        rcases moveState_winner_cases (g := g) mc me with hwc | hwc
        · have hpl : play s1 s2 l1 l2 (fuel + 1) g me = some (some me) := by
            rw [play_succ, if_pos hemp, hmove, hwc]
          constructor
          · intro out hout
            rw [hpl] at hout
            injection hout with h3
            intro hc
            rw [← h3] at hc
            injection hc with h4
            exact hne h4
          · intro _
            exact ⟨some me, hpl⟩
        · have hwn : (moveState g mc me).current_winner = none := by
            rw [hwc, hw]
          have hnext : (if me = l1 then l2 else l1) = o := by
            rcases hseat with ⟨h1, h2⟩ | ⟨h1, h2⟩
            · rw [if_pos h1.symm]
              exact h2
            · rw [if_neg (by rw [h1]; exact hne)]
              exact h1
          have heq : play s1 s2 l1 l2 (fuel + 1) g me =
              play s1 s2 l1 l2 fuel (moveState g mc me) o := by
            rw [play_succ, if_pos hemp, hmove, hwn, hnext]
          have hec : num_empty_squares (moveState g mc me) + 1 = num_empty_squares g :=
            num_empty_moveState hmc me
          have hinvo' : ∃ n' : Int, 0 ≤ n' ∧
              (mmPure me o (moveState g mc me) o).score = Score.int n' := by
            have hcc := childScore_clean hne hmc hwn
            have hadv : advOf me o me = o := by rw [advOf, if_pos rfl]
            rw [hadv] at hcc
            exact ⟨nc, by omega, by rw [← hcc]; exact hcs⟩
          obtain ⟨ih1, ih2⟩ := ihf (moveState g mc me) o hwn (by omega) (Or.inr rfl)
            (fun hmo => absurd hmo (Ne.symm hne)) (fun _ => hinvo')
          constructor
          · intro out hout
            rw [heq] at hout
            exact ih1 out hout
          · intro hlt
            obtain ⟨out, hout⟩ := ih2 (by omega)
            exact ⟨out, by rw [heq]; exact hout⟩
      · have hos : o = mover := hmv.symm
        subst hos
        obtain ⟨n, hn0, hsc⟩ := hinvo rfl
        obtain ⟨m, hmem, htg⟩ := ht g hw hemp
        have hpo : ¬ o = me := fun h => hne h.symm
        obtain ⟨mc, nc, hpure, hmc, hcs, _, hmin⟩ := @mmPure_char me o hne g o hw hemp
        have hn_eq : nc = n := by
          rw [hpure] at hsc
          have h2 : Score.int nc = Score.int n := hsc
          injection h2
        have hmove : (make_move g ((if o = l1 then s1 else s2) g) o).1 =
            moveState g m o := by
          rw [hs_o, htg, make_move_accept' hmem]
        rcases moveState_winner_cases (g := g) m o with hwc | hwc
        · exfalso
          have hcw := childScore_win hne hmem hwc
          have hterm : childScore me o g o m =
              Score.int (-((num_empty_squares (moveState g m o) : Int) + 1)) := by
            rw [hcw, termScore, if_neg hpo]
          have hlt2 := hmin hpo m hmem _ hterm
          omega
        · have hwn : (moveState g m o).current_winner = none := by
            rw [hwc, hw]
          have hnext : (if o = l1 then l2 else l1) = me := by
            rcases hseat with ⟨h1, h2⟩ | ⟨h1, h2⟩
            · rw [if_neg (by rw [h1]; exact hpo)]
              exact h1
            · rw [if_pos h1.symm]
              exact h2
          have heq : play s1 s2 l1 l2 (fuel + 1) g o =
              play s1 s2 l1 l2 fuel (moveState g m o) me := by
            rw [play_succ, if_pos hemp, hmove, hwn, hnext]
          have hec : num_empty_squares (moveState g m o) + 1 = num_empty_squares g :=
            num_empty_moveState hmem o
          have hadv : advOf me o o = me := by rw [advOf, if_neg hpo]
          have hcc := childScore_clean hne hmem hwn
          rw [hadv] at hcc
          obtain ⟨k, hk⟩ := @childScore_int me o hne g o hw m hmem
          have hnk := hmin hpo m hmem k hk
          have hinvme' : num_empty_squares (moveState g m o) ≠
              get_rows (moveState g m o) * get_cols (moveState g m o) ∧
              ∃ n' : Int, 0 ≤ n' ∧
                (mmPure me o (moveState g m o) me).score = Score.int n' := by
            constructor
            · have h9 : get_rows (moveState g m o) * get_cols (moveState g m o) = 9 := rfl
              rw [h9]
              omega
            · exact ⟨k, by omega, by rw [← hcc]; exact hk⟩
          obtain ⟨ih1, ih2⟩ := ihf (moveState g m o) me hwn (by omega) (Or.inl rfl)
            (fun _ => hinvme') (fun hom => absurd hom hne)
          constructor
          · intro out hout
            rw [heq] at hout
            exact ih1 out hout
          · intro hlt
            obtain ⟨out, hout⟩ := ih2 (by omega)
            exact ⟨out, by rw [heq]; exact hout⟩

theorem opening_no_win (letter : Letter) :
    ∀ m ∈ available_moves initialGame,
      (moveState initialGame m letter).current_winner = none := by
  cases letter <;> decide

theorem num_empty_initial : num_empty_squares initialGame = 9 := rfl

/-- The first iteration of the loop from the empty board: the starting
player's move is accepted, records no winner, and the turn passes. -/
theorem play_first (s1 s2 : TicTacToe → Int) (l1 l2 : Letter) (fuel : Nat) {m0 : Nat}
    (hm0 : m0 ∈ available_moves initialGame) (hs : s1 initialGame = Int.ofNat m0) :
    play s1 s2 l1 l2 (fuel + 1) initialGame l1 =
      play s1 s2 l1 l2 fuel (moveState initialGame m0 l1) l2 := by
  have hmove : (make_move initialGame ((if l1 = l1 then s1 else s2) initialGame) l1).1 =
      moveState initialGame m0 l1 := by
    rw [if_pos rfl, hs, make_move_accept' hm0]
  rw [play_succ, if_pos (by decide : empty_squares initialGame = true), hmove,
    opening_no_win l1 m0 hm0, if_pos rfl]

theorem engineStrat_opening (me adv : Letter) (r : TicTacToe → Nat) :
    ∃ m0 ∈ available_moves initialGame,
      engineStrat me adv r initialGame = Int.ofNat m0 := by
  obtain ⟨m0, hm0, hrc⟩ :=
    randomChoice_mem (r initialGame) (by decide : available_moves initialGame ≠ [])
  refine ⟨m0, hm0, ?_⟩
  rw [engineStrat, get_move,
    if_pos (by decide :
      num_empty_squares initialGame = get_rows initialGame * get_cols initialGame), hrc]

set_option maxRecDepth 100000 in
set_option maxHeartbeats 1600000 in
theorem openFactX0 :
    noLoseF Letter.X 9 (moveState initialGame 0 Letter.X) Letter.O = true := by
  decide

set_option maxRecDepth 100000 in
set_option maxHeartbeats 1600000 in
theorem openFactX1 :
    noLoseF Letter.X 9 (moveState initialGame 1 Letter.X) Letter.O = true := by
  decide

set_option maxRecDepth 100000 in
set_option maxHeartbeats 1600000 in
theorem openFactX2 :
    noLoseF Letter.X 9 (moveState initialGame 2 Letter.X) Letter.O = true := by
  decide

set_option maxRecDepth 100000 in
set_option maxHeartbeats 1600000 in
theorem openFactX3 :
    noLoseF Letter.X 9 (moveState initialGame 3 Letter.X) Letter.O = true := by
  decide

set_option maxRecDepth 100000 in
set_option maxHeartbeats 1600000 in
theorem openFactX4 :
    noLoseF Letter.X 9 (moveState initialGame 4 Letter.X) Letter.O = true := by
  decide

set_option maxRecDepth 100000 in
set_option maxHeartbeats 1600000 in
theorem openFactX5 :
    noLoseF Letter.X 9 (moveState initialGame 5 Letter.X) Letter.O = true := by
  decide

set_option maxRecDepth 100000 in
set_option maxHeartbeats 1600000 in
theorem openFactX6 :
    noLoseF Letter.X 9 (moveState initialGame 6 Letter.X) Letter.O = true := by
  decide

set_option maxRecDepth 100000 in
set_option maxHeartbeats 1600000 in
theorem openFactX7 :
    noLoseF Letter.X 9 (moveState initialGame 7 Letter.X) Letter.O = true := by
  decide

set_option maxRecDepth 100000 in
set_option maxHeartbeats 1600000 in
theorem openFactX8 :
    noLoseF Letter.X 9 (moveState initialGame 8 Letter.X) Letter.O = true := by
  decide

theorem openFactX :
    ∀ m ∈ available_moves initialGame,
      noLoseF Letter.X 9 (moveState initialGame m Letter.X) Letter.O = true := by
  intro m hm
  have h : available_moves initialGame = [0, 1, 2, 3, 4, 5, 6, 7, 8] := rfl
  rw [h] at hm
  have hm2 : m = 0 ∨ m = 1 ∨ m = 2 ∨ m = 3 ∨ m = 4 ∨ m = 5 ∨ m = 6 ∨ m = 7 ∨ m = 8 := by
    simpa using hm
  rcases hm2 with rfl | rfl | rfl | rfl | rfl | rfl | rfl | rfl | rfl
  · exact openFactX0
  · exact openFactX1
  · exact openFactX2
  · exact openFactX3
  · exact openFactX4
  · exact openFactX5
  · exact openFactX6
  · exact openFactX7
  · exact openFactX8

set_option maxRecDepth 100000 in
set_option maxHeartbeats 1600000 in
theorem openFactO0 :
    noLoseF Letter.O 9 (moveState initialGame 0 Letter.X) Letter.O = true := by
  decide

set_option maxRecDepth 100000 in
set_option maxHeartbeats 1600000 in
theorem openFactO1 :
    noLoseF Letter.O 9 (moveState initialGame 1 Letter.X) Letter.O = true := by
  decide

set_option maxRecDepth 100000 in
set_option maxHeartbeats 1600000 in
theorem openFactO2 :
    noLoseF Letter.O 9 (moveState initialGame 2 Letter.X) Letter.O = true := by
  decide

set_option maxRecDepth 100000 in
set_option maxHeartbeats 1600000 in
theorem openFactO3 :
    noLoseF Letter.O 9 (moveState initialGame 3 Letter.X) Letter.O = true := by
  decide

set_option maxRecDepth 100000 in
set_option maxHeartbeats 1600000 in
theorem openFactO4 :
    noLoseF Letter.O 9 (moveState initialGame 4 Letter.X) Letter.O = true := by
  decide

set_option maxRecDepth 100000 in
set_option maxHeartbeats 1600000 in
theorem openFactO5 :
    noLoseF Letter.O 9 (moveState initialGame 5 Letter.X) Letter.O = true := by
  decide

set_option maxRecDepth 100000 in
set_option maxHeartbeats 1600000 in
theorem openFactO6 :
    noLoseF Letter.O 9 (moveState initialGame 6 Letter.X) Letter.O = true := by
  decide

set_option maxRecDepth 100000 in
set_option maxHeartbeats 1600000 in
theorem openFactO7 :
    noLoseF Letter.O 9 (moveState initialGame 7 Letter.X) Letter.O = true := by
  decide

set_option maxRecDepth 100000 in
set_option maxHeartbeats 1600000 in
theorem openFactO8 :
    noLoseF Letter.O 9 (moveState initialGame 8 Letter.X) Letter.O = true := by
  decide

theorem openFactO :
    ∀ m ∈ available_moves initialGame,
      noLoseF Letter.O 9 (moveState initialGame m Letter.X) Letter.O = true := by
  intro m hm
  have h : available_moves initialGame = [0, 1, 2, 3, 4, 5, 6, 7, 8] := rfl
  rw [h] at hm
  have hm2 : m = 0 ∨ m = 1 ∨ m = 2 ∨ m = 3 ∨ m = 4 ∨ m = 5 ∨ m = 6 ∨ m = 7 ∨ m = 8 := by
    simpa using hm
  rcases hm2 with rfl | rfl | rfl | rfl | rfl | rfl | rfl | rfl | rfl
  · exact openFactO0
  · exact openFactO1
  · exact openFactO2
  · exact openFactO3
  · exact openFactO4
  · exact openFactO5
  · exact openFactO6
  · exact openFactO7
  · exact openFactO8

theorem openScoreX : ∀ m ∈ available_moves initialGame, ∃ n : Int, 0 ≤ n ∧
    (mmPure Letter.X Letter.O (moveState initialGame m Letter.X) Letter.O).score
      = Score.int n := by
  intro m hm
  have h9 : num_empty_squares (moveState initialGame m Letter.X) + 1 = 9 := by
    rw [num_empty_moveState hm Letter.X]
    exact num_empty_initial
  exact noLose_sound (by decide) (moveState initialGame m Letter.X) Letter.O
    (opening_no_win Letter.X m hm) (by rw [h9]; exact openFactX m hm)

theorem openScoreO : ∀ m ∈ available_moves initialGame, ∃ n : Int, 0 ≤ n ∧
    (mmPure Letter.O Letter.X (moveState initialGame m Letter.X) Letter.O).score
      = Score.int n := by
  intro m hm
  have h9 : num_empty_squares (moveState initialGame m Letter.X) + 1 = 9 := by
    rw [num_empty_moveState hm Letter.X]
    exact num_empty_initial
  exact noLose_sound (by decide) (moveState initialGame m Letter.X) Letter.O
    (opening_no_win Letter.X m hm) (by rw [h9]; exact openFactO m hm)

theorem firstAvail_legal : legalStrat firstAvail := by
  intro g hw he
  cases h : available_moves g with
  | nil => exact absurd h (avail_ne_nil_of_empty he)
  | cons m tl =>
    exact ⟨m, List.mem_cons_self _ _, by rw [firstAvail, h]; rfl⟩

/-- C1: through the game loop of `game.py` from the empty board, with the
engine choosing all of its own moves via `get_move` (random opening drawn
from `r`), no completed game ends with the opposing mark as winner - as
the first player against every legal opponent strategy, and as the second
player against every legal opponent strategy; and a game between two
engine instances always ends in a draw. -/
theorem engine_never_loses {t : TicTacToe → Int} (ht : legalStrat t)
    (r r2 : TicTacToe → Nat) :
    (∀ fuel out,
      play (engineStrat Letter.X Letter.O r) t Letter.X Letter.O fuel initialGame Letter.X
        = some out → out ≠ some Letter.O) ∧
    (∀ fuel out,
      play t (engineStrat Letter.O Letter.X r2) Letter.X Letter.O fuel initialGame Letter.X
        = some out → out ≠ some Letter.X) ∧
    play (engineStrat Letter.X Letter.O r) (engineStrat Letter.O Letter.X r2)
      Letter.X Letter.O 10 initialGame Letter.X = some none := by
  have hneXO : Letter.X ≠ Letter.O := by decide
  have hneOX : Letter.O ≠ Letter.X := by decide
  have hwin : initialGame.current_winner = none := rfl
  have hein : empty_squares initialGame = true := by decide
  refine ⟨?_, ?_, ?_⟩
  · intro fuel out hout
    cases fuel with
    | zero => exact absurd hout (by rw [show play (engineStrat Letter.X Letter.O r) t
        Letter.X Letter.O 0 initialGame Letter.X = none from rfl]; simp)
    | succ f =>
      obtain ⟨m0, hm0, hs⟩ := engineStrat_opening Letter.X Letter.O r
      rw [play_first _ _ _ _ f hm0 hs] at hout
      have h8 : num_empty_squares (moveState initialGame m0 Letter.X) + 1 = 9 := by
        rw [num_empty_moveState hm0 Letter.X]
        exact num_empty_initial
      obtain ⟨ih1, _⟩ := play_inv hneXO (engineStrat_mm hneXO r) ht
        (engineStrat Letter.X Letter.O r) t Letter.X Letter.O (Or.inl ⟨rfl, rfl⟩)
        (by rw [if_pos rfl]) (by rw [if_neg hneOX]) f
        (moveState initialGame m0 Letter.X) Letter.O
        (opening_no_win Letter.X m0 hm0) (by omega) (Or.inr rfl)
        (fun h => absurd h (by decide)) (fun _ => openScoreX m0 hm0)
      exact ih1 out hout
  · intro fuel out hout
    cases fuel with
    | zero => exact absurd hout (by rw [show play t (engineStrat Letter.O Letter.X r2)
        Letter.X Letter.O 0 initialGame Letter.X = none from rfl]; simp)
    | succ f =>
      obtain ⟨m0, hm0, hs⟩ := ht initialGame hwin hein
      rw [play_first _ _ _ _ f hm0 hs] at hout
      have h8 : num_empty_squares (moveState initialGame m0 Letter.X) + 1 = 9 := by
        rw [num_empty_moveState hm0 Letter.X]
        exact num_empty_initial
      obtain ⟨ih1, _⟩ := play_inv hneOX (engineStrat_mm hneOX r2) ht
        t (engineStrat Letter.O Letter.X r2) Letter.X Letter.O (Or.inr ⟨rfl, rfl⟩)
        (by rw [if_neg hneOX]) (by rw [if_pos rfl]) f
        (moveState initialGame m0 Letter.X) Letter.O
        (opening_no_win Letter.X m0 hm0) (by omega) (Or.inl rfl)
        (fun _ => ⟨by rw [show get_rows (moveState initialGame m0 Letter.X) *
            get_cols (moveState initialGame m0 Letter.X) = 9 from rfl]; omega,
          openScoreO m0 hm0⟩)
        (fun h => absurd h (by decide))
      exact ih1 out hout
  · obtain ⟨m0, hm0, hs⟩ := engineStrat_opening Letter.X Letter.O r
    have heq := play_first (engineStrat Letter.X Letter.O r)
      (engineStrat Letter.O Letter.X r2) Letter.X Letter.O 9 hm0 hs
    have h8 : num_empty_squares (moveState initialGame m0 Letter.X) + 1 = 9 := by
      rw [num_empty_moveState hm0 Letter.X]
      exact num_empty_initial
    obtain ⟨ihX1, ihX2⟩ := play_inv hneXO (engineStrat_mm hneXO r)
      (engineStrat_legal hneOX r2)
      (engineStrat Letter.X Letter.O r) (engineStrat Letter.O Letter.X r2)
      Letter.X Letter.O (Or.inl ⟨rfl, rfl⟩)
      (by rw [if_pos rfl]) (by rw [if_neg hneOX]) 9
      (moveState initialGame m0 Letter.X) Letter.O
      (opening_no_win Letter.X m0 hm0) (by omega) (Or.inr rfl)
      (fun h => absurd h (by decide)) (fun _ => openScoreX m0 hm0)
    obtain ⟨ihO1, _⟩ := play_inv hneOX (engineStrat_mm hneOX r2)
      (engineStrat_legal hneXO r)
      (engineStrat Letter.X Letter.O r) (engineStrat Letter.O Letter.X r2)
      Letter.X Letter.O (Or.inr ⟨rfl, rfl⟩)
      (by rw [if_neg hneOX]) (by rw [if_pos rfl]) 9
      (moveState initialGame m0 Letter.X) Letter.O
      (opening_no_win Letter.X m0 hm0) (by omega) (Or.inl rfl)
      (fun _ => ⟨by rw [show get_rows (moveState initialGame m0 Letter.X) *
          get_cols (moveState initialGame m0 Letter.X) = 9 from rfl]; omega,
        openScoreO m0 hm0⟩)
      (fun h => absurd h (by decide))
    obtain ⟨out, hout⟩ := ihX2 (by omega)
    have houtX := ihO1 out hout
    have houtO := ihX1 out hout
    rw [heq]
    cases out with
    | none => exact hout
    | some l =>
      cases l with
      | X => exact absurd rfl houtX
      | O => exact absurd rfl houtO

theorem engine_never_loses_witness :
    (∀ fuel out,
      play (engineStrat Letter.X Letter.O (fun _ => 0)) firstAvail Letter.X Letter.O fuel
        initialGame Letter.X = some out → out ≠ some Letter.O) ∧
    (∀ fuel out,
      play firstAvail (engineStrat Letter.O Letter.X (fun _ => 0)) Letter.X Letter.O fuel
        initialGame Letter.X = some out → out ≠ some Letter.X) ∧
    play (engineStrat Letter.X Letter.O (fun _ => 0))
      (engineStrat Letter.O Letter.X (fun _ => 0)) Letter.X Letter.O 10 initialGame
      Letter.X = some none :=
  engine_never_loses firstAvail_legal (fun _ => 0) (fun _ => 0)
